import Mathlib

/-!
Verification development for the waf-detector repository.

The definitions below are a shallow embedding of the Rust sources:
`src/lib.rs` (core data model), `src/confidence/advanced_scoring.rs`
(confidence scorer), `src/registry/mod.rs` (provider registry and
`detect_all`), `src/engine/mod.rs` (detection engine and batch mode),
`src/payload/waf_smoke_test.rs` (smoke-test classifier and summary),
`src/timing/mod.rs` (timing analyser) and `src/providers/cloudflare.rs`
(CloudFlare passive detector).

Modelling conventions:
- Rust `f64` arithmetic is embedded over `ℚ`.  All constants appearing in
  the source are decimal literals, and every claim considered here is about
  the exact arithmetic structure of the algorithms, not about rounding.
- Rust `HashMap` values are embedded as functions `String → Option α`
  (insert = pointwise update); `HashMap` iteration order, where it matters
  (the `DashMap` of providers), is made explicit as a list parameter.
- `async` plumbing is erased: each probe's outcome is an explicit input.
-/

namespace WafDetector

/-! ### String helpers

Embeddings of Rust's `str::to_lowercase` and `str::contains` used by the
sources.  Inputs relevant to the claims are ASCII, where `Char.toLower`
agrees with Rust's Unicode lowercasing. -/

/-- ASCII-faithful embedding of Rust `str::to_lowercase`. -/
def lowerStr (s : String) : String := (s.toList.map Char.toLower).asString

/-- `leadsWith p l` holds when `p` is an initial segment of `l`. -/
def leadsWith : List Char → List Char → Bool
  | [], _ => true
  | _ :: _, [] => false
  | c :: p, d :: l => c == d && leadsWith p l

/-- `hasSubList p l`: `p` occurs contiguously inside `l` (Rust `str::contains`). -/
def hasSubList (p : List Char) : List Char → Bool
  | [] => leadsWith p []
  | c :: l => leadsWith p (c :: l) || hasSubList p l

/-- Rust `s.contains(p)` on strings. -/
def hasSubStr (p s : String) : Bool := hasSubList p.toList s.toList

/-- `header_name.to_lowercase().contains(&pattern.to_lowercase())` from the scorer. -/
def containsLower (p s : String) : Bool := hasSubStr (lowerStr p) (lowerStr s)

/-! ### Core data model (`src/lib.rs`) -/

/-- `DetectionMethod` from `src/lib.rs` (alias `MethodType`). -/
inductive MethodTypeE where
  | header (name : String)
  | body (tag : String)
  | statusCode (code : ℕ)
  | dns (record : String)
  | timing
  | certificate
  | payload
deriving DecidableEq, Repr

/-- `Evidence` from `src/lib.rs`. -/
structure EvidenceE where
  methodType : MethodTypeE
  confidence : ℚ
  description : String
  rawData : String
  signatureMatched : String
deriving DecidableEq, Repr

/-- `ProviderType` from `src/lib.rs`. -/
inductive ProviderTypeE where
  | waf
  | cdn
  | both
deriving DecidableEq, Repr

/-- One provider of the `Provider` enum (`src/providers/mod.rs`).  The enum
variants all forward `name/version/description/provider_type/confidence_base/
priority/enabled` to the wrapped provider struct, so a provider is embedded as
the record of those attributes; its `detect` outcome is passed separately. -/
structure ProviderR where
  name : String
  version : String
  description : String
  ptype : ProviderTypeE
  confidenceBase : ℚ
  priority : ℕ
  enabled : Bool
deriving DecidableEq, Repr

/-- `ProviderDetection` from `src/lib.rs`. -/
structure ProviderDetectionE where
  name : String
  confidence : ℚ
deriving DecidableEq, Repr

/-! ### Confidence scorer (`src/confidence/advanced_scoring.rs`) -/

/-- `EvidenceCategory`. -/
inductive EvidenceCategory where
  | headers
  | server
  | body
  | statusCode
  | behavioral
  | errorPage
  | network
deriving DecidableEq, Repr

/-- `EvidenceWeight`. -/
structure EvidenceWeight where
  baseWeight : ℚ
  specificity : ℚ
  reliability : ℚ
  category : EvidenceCategory
deriving DecidableEq, Repr

/-- The `evidence_weights` table built in `AdvancedScoring::new`
(`advanced_scoring.rs` lines 89–383), keyed by `signature_id`. -/
def evidenceWeights : String → Option EvidenceWeight
  | "cf-ray-header" => some ⟨95/100, 98/100, 99/100, .headers⟩
  | "cf-cache-status-header" => some ⟨90/100, 95/100, 95/100, .headers⟩
  | "cloudflare-server-header" => some ⟨85/100, 90/100, 92/100, .server⟩
  | "cf-challenge-body" => some ⟨70/100, 60/100, 75/100, .body⟩
  | "cf-error-body" => some ⟨65/100, 55/100, 70/100, .body⟩
  | "cf-js-body" => some ⟨60/100, 50/100, 65/100, .body⟩
  | "cf-connecting-ip-header" => some ⟨80/100, 85/100, 90/100, .headers⟩
  | "cf-ipcountry-header" => some ⟨75/100, 80/100, 85/100, .headers⟩
  | "cf-visitor-header" => some ⟨75/100, 80/100, 85/100, .headers⟩
  | "cf-request-id-header" => some ⟨85/100, 90/100, 92/100, .headers⟩
  | "cf-403-status" => some ⟨75/100, 70/100, 80/100, .statusCode⟩
  | "cf-429-status" => some ⟨80/100, 75/100, 85/100, .statusCode⟩
  | "x-amz-cf-id-header" => some ⟨95/100, 99/100, 98/100, .headers⟩
  | "x-amz-cf-pop-header" => some ⟨90/100, 95/100, 96/100, .headers⟩
  | "cloudfront-server-header" => some ⟨88/100, 92/100, 94/100, .server⟩
  | "cloudfront-via-header" => some ⟨85/100, 88/100, 90/100, .headers⟩
  | "akamai-grn-header" => some ⟨92/100, 96/100, 95/100, .headers⟩
  | "x-akamai-header" => some ⟨90/100, 94/100, 93/100, .headers⟩
  | "fastly-header" => some ⟨90/100, 93/100, 92/100, .headers⟩
  | "x-served-by-fastly" => some ⟨88/100, 90/100, 89/100, .headers⟩
  | "x-vercel-id-header" => some ⟨95/100, 98/100, 96/100, .headers⟩
  | "vercel-server-header" => some ⟨90/100, 95/100, 93/100, .server⟩
  | "timing-waf-delay" => some ⟨85/100, 90/100, 88/100, .behavioral⟩
  | "timing-pattern-analysis" => some ⟨80/100, 85/100, 82/100, .behavioral⟩
  | "timing-baseline-comparison" => some ⟨83/100, 87/100, 85/100, .behavioral⟩
  | "dns-cname-cloudflare" => some ⟨98/100, 99/100, 98/100, .network⟩
  | "dns-cname-aws" => some ⟨98/100, 99/100, 98/100, .network⟩
  | "dns-cname-fastly" => some ⟨98/100, 99/100, 98/100, .network⟩
  | "dns-cname-akamai" => some ⟨98/100, 99/100, 98/100, .network⟩
  | "dns-cname-vercel" => some ⟨99/100, 99/100, 98/100, .network⟩
  | "dns-cname-keycdn" => some ⟨98/100, 99/100, 98/100, .network⟩
  | "dns-cname-maxcdn" => some ⟨98/100, 99/100, 98/100, .network⟩
  | "payload_detection_cloudflare" => some ⟨80/100, 85/100, 75/100, .behavioral⟩
  | "payload_detection_aws_waf" => some ⟨80/100, 85/100, 75/100, .behavioral⟩
  | "payload_detection_akamai" => some ⟨80/100, 85/100, 75/100, .behavioral⟩
  | "payload_detection_generic_waf" => some ⟨70/100, 70/100, 65/100, .behavioral⟩
  | "blocked_xss_payload" => some ⟨75/100, 80/100, 70/100, .behavioral⟩
  | "blocked_sqlinjection_payload" => some ⟨75/100, 80/100, 70/100, .behavioral⟩
  | "blocked_commandinjection_payload" => some ⟨78/100, 82/100, 72/100, .behavioral⟩
  | "blocked_pathtraversal_payload" => some ⟨77/100, 81/100, 71/100, .behavioral⟩
  | _ => none

/-- `AdvancedScoring::get_fallback_weight` (lines 592–658). -/
def getFallbackWeight : MethodTypeE → EvidenceWeight
  | .header _ => ⟨85/100, 80/100, 90/100, .headers⟩
  | .statusCode _ => ⟨75/100, 65/100, 75/100, .statusCode⟩
  | .body _ => ⟨55/100, 45/100, 60/100, .body⟩
  | .timing => ⟨60/100, 50/100, 65/100, .behavioral⟩
  | .dns _ => ⟨70/100, 60/100, 75/100, .network⟩
  | .certificate => ⟨75/100, 70/100, 80/100, .network⟩
  | .payload => ⟨80/100, 85/100, 75/100, .behavioral⟩

/-- The `negative_evidence_patterns` table as it actually results from
`AdvancedScoring::new` (lines 385–405).  The source calls
`negative_evidence_patterns.insert("CloudFlare", ...)` twice; on a
`HashMap`, the second insert (Akamai markers, lines 402–405) REPLACES the
first one (AWS markers, lines 389–393).  So the final table holds only the
Akamai markers for CloudFlare, even though the comment at line 388 states
the intent that AWS headers should contradict CloudFlare. -/
def negativeEvidencePatterns : String → Option (List String)
  | "CloudFlare" => some ["akamai-grn", "x-akamai-transformed"]
  | "AWS" => some ["cf-ray", "cf-cache-status"]
  | _ => none

/-- Effective weight of one Evidence item: table lookup by `signature_matched`,
falling back on the method-type weight (`calculate_confidence` lines 447–452). -/
def weightOf (e : EvidenceE) : EvidenceWeight :=
  (evidenceWeights e.signatureMatched).getD (getFallbackWeight e.methodType)

/-- `evidence_score = ev.confidence * base_weight * specificity * reliability`. -/
def contribution (e : EvidenceE) : ℚ :=
  e.confidence * (weightOf e).baseWeight * (weightOf e).specificity * (weightOf e).reliability

/-- The `evidence_breakdown` map.  In the source it is a
`HashMap<EvidenceCategory, f64>` whose seven keys are all initialised to 0
(lines 432–443); we embed it as a record with one field per category. -/
structure Breakdown where
  headers : ℚ
  server : ℚ
  body : ℚ
  statusCode : ℚ
  behavioral : ℚ
  errorPage : ℚ
  network : ℚ
deriving DecidableEq, Repr

/-- The all-zero initial breakdown. -/
def Breakdown.zero : Breakdown := ⟨0, 0, 0, 0, 0, 0, 0⟩

/-- Lookup of one category's subtotal. -/
def Breakdown.get (b : Breakdown) : EvidenceCategory → ℚ
  | .headers => b.headers
  | .server => b.server
  | .body => b.body
  | .statusCode => b.statusCode
  | .behavioral => b.behavioral
  | .errorPage => b.errorPage
  | .network => b.network

/-- `*category_score += evidence_score` on the breakdown map. -/
def Breakdown.add (b : Breakdown) : EvidenceCategory → ℚ → Breakdown
  | .headers, q => { b with headers := b.headers + q }
  | .server, q => { b with server := b.server + q }
  | .body, q => { b with body := b.body + q }
  | .statusCode, q => { b with statusCode := b.statusCode + q }
  | .behavioral, q => { b with behavioral := b.behavioral + q }
  | .errorPage, q => { b with errorPage := b.errorPage + q }
  | .network, q => { b with network := b.network + q }

/-- Per-category subtotals accumulated over the evidence list
(`calculate_confidence` lines 446–470). -/
def breakdownOf (evidence : List EvidenceE) : Breakdown :=
  evidence.foldl (fun acc e => acc.add (weightOf e).category (contribution e)) Breakdown.zero

/-- Sum of all contributions (the running `total_score` before penalties). -/
def totalOf (evidence : List EvidenceE) : ℚ :=
  evidence.foldl (fun acc e => acc + contribution e) 0

/-- The contradiction penalty loop (`calculate_confidence` lines 472–486):
for each negative pattern of the provider and each response-header name
containing it (case-insensitively), multiply the total by 0.3 and count one
negative evidence.  Returns (penalised total, negative evidence count). -/
def applyNegative (provider : String) (headers : List (String × String)) (t : ℚ) : ℚ × ℕ :=
  match negativeEvidencePatterns provider with
  | none => (t, 0)
  | some pats =>
      pats.foldl
        (fun acc p =>
          headers.foldl
            (fun acc2 h =>
              if containsLower p h.1 then (acc2.1 * (3/10), acc2.2 + 1) else acc2)
            acc)
        (t, 0)

/-- All seven categories, in the order they are initialised in the source. -/
def allCategories : List EvidenceCategory :=
  [.headers, .server, .body, .statusCode, .behavioral, .errorPage, .network]

/-- `AdvancedScoring::calculate_confidence` (lines 420–553), final score only.
Faithful to the source: ratios are computed from the post-penalty total
(`total_score.max(0.001)`), the three bonus/penalty conditions are tested on
those fixed ratios, and the result is clamped to 1.0.  The textual
`explanation`, `level` banding and `missing_evidence` suggestions carry no
score information and are not modelled. -/
def calcConfidenceScore (provider : String) (evidence : List EvidenceE)
    (headers : List (String × String)) : ℚ :=
  let bd := breakdownOf evidence
  let t0 := totalOf evidence
  let t1 := (applyNegative provider headers t0).1
  let hr := bd.headers / max t1 (1/1000)
  let br := bd.body / max t1 (1/1000)
  let t2 := if hr > 7/10 then t1 * (11/10) else t1
  let t3 := if br > 1/2 ∧ hr < 3/10 then t2 * (8/10) else t2
  let nz := allCategories.countP (fun c => decide (bd.get c > 0))
  let t4 := if nz ≥ 3 then t3 * (21/20) else t3
  min t4 1

/-- `negative_evidence_count` reported by `calculate_confidence`. -/
def negativeEvidenceCount (provider : String) (headers : List (String × String)) : ℕ :=
  (applyNegative provider headers 0).2

/-- The CF-Ray Evidence of confidence 0.95 emitted by the CloudFlare header
detector (`cloudflare.rs` lines 64–74). -/
def cfRayEvidence : EvidenceE :=
  { methodType := .header "cf-ray"
    confidence := 95/100
    description := "CloudFlare Ray ID header detected"
    rawData := "7a0000000000aaaa-DFW"
    signatureMatched := "cf-ray-header" }

/-! ### Smoke-test classifier and summary (`src/payload/waf_smoke_test.rs`) -/

/-- `PayloadClassification`. -/
inductive PayloadClassification where
  | blocked
  | allowed
  | error
  | rateLimited
  | challenge
deriving DecidableEq, Repr

/-- `PayloadType` (`src/engine/waf_mode_detector.rs` lines 40–50). -/
inductive PayloadTypeE where
  | xssBasic
  | xssAdvanced
  | sqlInjectionBasic
  | sqlInjectionAdvanced
  | pathTraversal
  | commandInjection
  | fileUpload
  | scannerDetection
  | enumeration
deriving DecidableEq, Repr

/-- The status-code match at the top of `WafSmokeTest::classify_response`
(lines 381–406), with the Rust match arms in source order. -/
def statusClassification (status : ℕ) : PayloadClassification :=
  if status = 403 then .blocked
  else if status = 406 then .blocked
  else if status = 429 then .rateLimited
  else if status = 503 then .blocked
  else if status = 200 ∨ status = 301 ∨ status = 302 then .allowed
  else .error

/-- The three challenge-page markers tested against the lowercased body
(`classify_response` lines 442–444). -/
def challengeMarkers : List String := ["checking your browser", "challenge", "captcha"]

/-- `body_lower.contains(marker)` for some challenge marker. -/
def hasChallengeMarker (body : String) : Bool :=
  challengeMarkers.any (fun m => hasSubStr m (lowerStr body))

/-- The `blocking_keywords` array of `classify_response` (lines 450–454).
In the source this loop only pushes an evidence string (line 458) and then
breaks; it never changes the classification. -/
def blockingKeywords : List String :=
  ["access denied", "blocked", "forbidden", "not allowed",
   "security violation", "malicious request", "attack detected",
   "waf", "firewall", "protection", "security policy", "threat detected"]

/-- The classification component of `WafSmokeTest::classify_response`
(lines 372–469).  The function first classifies by status code alone; the
header scan (lines 409–436) and the blocking-keyword scan (lines 456–461)
only accumulate evidence strings and never modify the classification; the
challenge-marker check (lines 442–447) returns `Challenge` early,
overriding whatever the status code gave (including 429). -/
def classifyResponseClassification (status : ℕ) (body : String) : PayloadClassification :=
  if hasChallengeMarker body then .challenge else statusClassification status

/-- `PayloadTestResult`. -/
structure PayloadTestResultE where
  category : String
  payload : String
  payloadType : PayloadTypeE
  responseStatus : ℕ
  responseTimeMs : ℕ
  classification : PayloadClassification
  evidence : List String
  wafIndicators : List String
deriving DecidableEq, Repr

/-- `TestSummary`. -/
structure TestSummaryE where
  totalTests : ℕ
  blockedCount : ℕ
  allowedCount : ℕ
  errorCount : ℕ
  rateLimitedCount : ℕ
  challengeCount : ℕ
  effectivenessPercentage : ℚ
  averageResponseTimeMs : ℚ
deriving DecidableEq, Repr

/-- `WafSmokeTest::calculate_summary` (lines 504–534). -/
def calculateSummary (results : List PayloadTestResultE) : TestSummaryE :=
  let totalTests := results.length
  let blockedCount := results.countP (fun r => decide (r.classification = .blocked))
  let allowedCount := results.countP (fun r => decide (r.classification = .allowed))
  let errorCount := results.countP (fun r => decide (r.classification = .error))
  let rateLimitedCount := results.countP (fun r => decide (r.classification = .rateLimited))
  let challengeCount := results.countP (fun r => decide (r.classification = .challenge))
  { totalTests := totalTests
    blockedCount := blockedCount
    allowedCount := allowedCount
    errorCount := errorCount
    rateLimitedCount := rateLimitedCount
    challengeCount := challengeCount
    effectivenessPercentage :=
      if totalTests > 0 then
        (((blockedCount + rateLimitedCount + challengeCount : ℕ) : ℚ) / totalTests) * 100
      else 0
    averageResponseTimeMs :=
      if totalTests > 0 then (((results.map (·.responseTimeMs)).sum : ℕ) : ℚ) / totalTests
      else 0 }

/-! ### Timing analyser (`src/timing/mod.rs`) -/

/-- `TimingConfig` (the request timeout carries no logic modelled here). -/
structure TimingConfigE where
  minWafDelayMs : ℕ
  maxWafDelayMs : ℕ
  baselineRequests : ℕ
  testRequests : ℕ
deriving DecidableEq, Repr

/-- `TimingConfig::default` (lines 47–57). -/
def defaultTimingConfig : TimingConfigE :=
  { minWafDelayMs := 50, maxWafDelayMs := 200, baselineRequests := 3, testRequests := 3 }

/-- `TimingTechnique` (BurstTiming is declared but never produced). -/
inductive TimingTechnique where
  | baselineComparison
  | patternAnalysis
  | burstTiming
deriving DecidableEq, Repr

/-- Integer average `times.iter().sum::<u64>() / times.len() as u64`
(u64 division truncates, exactly like `Nat` division; the source never
averages an empty list — the request counts are the positive configured
`baseline_requests`/`test_requests`). -/
def avgU64 (times : List ℕ) : ℕ := times.sum / times.length

/-- `delay_amount` of `baseline_comparison` (lines 137–141). -/
def baselineDelayAmount (baselineTimes testTimes : List ℕ) : ℕ :=
  let baselineAvg := avgU64 baselineTimes
  let testAvg := avgU64 testTimes
  if testAvg > baselineAvg then testAvg - baselineAvg else 0

/-- `delay_detected` of `baseline_comparison` (lines 143–144). -/
def baselineDelayDetected (cfg : TimingConfigE) (baselineTimes testTimes : List ℕ) : Bool :=
  let d := baselineDelayAmount baselineTimes testTimes
  cfg.minWafDelayMs ≤ d ∧ d ≤ cfg.maxWafDelayMs

/-- Unnormalised variance `Σ (t − mean)² / n` of `calculate_variance`
(lines 270–275), before the square root. -/
def varianceRaw (times : List ℕ) (mean : ℕ) : ℚ :=
  (times.map (fun t => ((t : ℚ) - (mean : ℚ)) ^ 2)).sum / times.length

/-- `calculate_variance(times, mean) < 0.3`, the predicate used by
`pattern_analysis` (line 192).  The source computes the coefficient of
variation `cv = min(sqrt(variance)/mean, 1)` (or 0 when `times.len() ≤ 1`
or `mean = 0`) and compares with 0.3.  Since `0.3 < 1` the `min` cap is
immaterial, and for `mean > 0` one has `sqrt(variance)/mean < 0.3 ↔
variance < 0.09·mean²` because squaring is monotone on nonnegatives; the
right-hand form avoids the irrational square root and is used here. -/
def cvLtThreshold (times : List ℕ) (mean : ℕ) : Bool :=
  if times.length ≤ 1 then true
  else if mean = 0 then true
  else varianceRaw times mean * 100 < 9 * ((mean : ℚ)) ^ 2

/-- `delay_detected` of `pattern_analysis` (lines 190–192): the mean of all
request times lies in `[min_waf_delay_ms, 1000]` and the coefficient of
variation is below 0.3.  The upper bound is the hard-coded 1000 ms, not
`max_waf_delay_ms`. -/
def patternDelayDetected (cfg : TimingConfigE) (allTimes : List ℕ) : Bool :=
  let avgTime := avgU64 allTimes
  cfg.minWafDelayMs ≤ avgTime ∧ avgTime ≤ 1000 ∧ cvLtThreshold allTimes avgTime

/-- One emitted timing Evidence, keeping the fields the claims speak about
(the confidence value involves an irrational square root and is not used by
any emission decision, so it is not modelled). -/
structure TimingEvidenceE where
  technique : TimingTechnique
  delayAmountMs : ℕ
  signatureMatched : String
deriving DecidableEq, Repr

/-- The Evidence list emitted by `TimingAnalyzer::analyze` (lines 80–125):
one item per technique whose `delay_detected` flag is set.  The measured
request times of the two techniques (three probe batches in the source) are
the inputs. -/
def timingAnalyzeEmits (cfg : TimingConfigE)
    (baselineTimes testTimes patternTimes : List ℕ) : List TimingEvidenceE :=
  (if baselineDelayDetected cfg baselineTimes testTimes then
    [{ technique := .baselineComparison
       delayAmountMs := baselineDelayAmount baselineTimes testTimes
       signatureMatched := "timing-waf-delay" }]
  else []) ++
  (if patternDelayDetected cfg patternTimes then
    [{ technique := .patternAnalysis
       delayAmountMs := avgU64 patternTimes
       signatureMatched := "timing-pattern-analysis" }]
  else [])

/-! ### CloudFlare body detector (`src/providers/cloudflare.rs`) -/

/-- Search for pattern `q` after a gap in which `.` may match: any
characters except a newline (Rust's `regex` crate: `.` does not match
`\n`). -/
def gapSearch (q : List Char → Bool) : List Char → Bool
  | [] => q []
  | c :: l => q (c :: l) || (c ≠ '\n' && gapSearch q l)

/-- `scanGap n p q l`: at some position of `l`, predicate `p` matches (its
match consuming `n` characters), followed — after a newline-free gap — by a
position where `q` matches.  This is `is_match` for regexes of the shape
`A.*B`. -/
def scanGap (n : ℕ) (p q : List Char → Bool) : List Char → Bool
  | [] => p [] && gapSearch q []
  | c :: l => (p (c :: l) && gapSearch q (List.drop n (c :: l))) || scanGap n p q l

/-- `is_match` of the literal-gap-literal regex `a.*b` (case already folded
by the caller). -/
def dotStarMatch (a b : String) (s : String) : Bool :=
  scanGap a.length (leadsWith a.toList) (leadsWith b.toList) s.toList

/-- `cf_challenge_pattern` (`cloudflare.rs` line 46):
`(?i)(checking your browser.*cloudflare|cf_chl_jschl_tk|cf_chl_captcha_tk|challenge-platform.*cloudflare)`,
applied to the lowercased subject since the alternation is case-insensitive
and all literals are lowercase. -/
def cfChallengeMatch (s : String) : Bool :=
  let l := lowerStr s
  dotStarMatch "checking your browser" "cloudflare" l ||
  hasSubStr "cf_chl_jschl_tk" l ||
  hasSubStr "cf_chl_captcha_tk" l ||
  dotStarMatch "challenge-platform" "cloudflare" l

/-- Matches `error 10\d{2}` at the head of the list (literal `error 10`
followed by two decimal digits). -/
def errorCodeAt (l : List Char) : Bool :=
  leadsWith "error 10".toList l &&
    match l.drop 8 with
    | d1 :: d2 :: _ => d1.isDigit && d2.isDigit
    | _ => false

/-- `cf_error_pattern` (`cloudflare.rs` line 52):
`(?i)(cloudflare.*error 10\d{2}|error 10\d{2}.*cloudflare|cloudflare.*blocked|cloudflare.*access denied)`. -/
def cfErrorMatch (s : String) : Bool :=
  let l := lowerStr s
  scanGap 10 (leadsWith "cloudflare".toList) errorCodeAt l.toList ||
  scanGap 10 errorCodeAt (leadsWith "cloudflare".toList) l.toList ||
  dotStarMatch "cloudflare" "blocked" l ||
  dotStarMatch "cloudflare" "access denied" l

/-- `cf_js_pattern` (`cloudflare.rs` line 57):
`(?i)(cf_chl_jschl_tk|cf_clearance|cf_chl_captcha_tk)`. -/
def cfJsMatch (s : String) : Bool :=
  let l := lowerStr s
  hasSubStr "cf_chl_jschl_tk" l || hasSubStr "cf_clearance" l || hasSubStr "cf_chl_captcha_tk" l

/-- `CloudFlareProvider::check_body_patterns` (`cloudflare.rs` lines
125–162): each matching body pattern emits one Evidence whose `raw_data` is
the fixed tag string, not the matched body snippet. -/
def checkBodyPatterns (body : String) : List EvidenceE :=
  (if cfChallengeMatch body then
    [{ methodType := .body "challenge-page-detected"
       confidence := 70/100
       description := "CloudFlare browser challenge page detected"
       rawData := "challenge-page-detected"
       signatureMatched := "cf-challenge-body" }]
  else []) ++
  (if cfErrorMatch body then
    [{ methodType := .body "error-page-detected"
       confidence := 65/100
       description := "CloudFlare error page detected"
       rawData := "error-page-detected"
       signatureMatched := "cf-error-body" }]
  else []) ++
  (if cfJsMatch body then
    [{ methodType := .body "js-tokens-detected"
       confidence := 60/100
       description := "CloudFlare JavaScript tokens detected"
       rawData := "js-tokens-detected"
       signatureMatched := "cf-js-body" }]
  else [])

/-! ### Provider registry (`src/registry/mod.rs`) -/

/-- `ProviderMetadata` (`src/providers/mod.rs` lines 123–131). -/
structure ProviderMetadataE where
  name : String
  version : String
  description : Option String
  providerType : String
  enabled : Bool
  priority : ℕ
deriving DecidableEq, Repr

/-- `ProviderMetadata::from(&Provider)` (`src/providers/mod.rs` lines
133–148); every provider's `description()` returns `Some(...)`. -/
def metadataFrom (p : ProviderR) : ProviderMetadataE :=
  { name := p.name
    version := p.version
    description := some p.description
    providerType :=
      match p.ptype with
      | .waf => "WAF Only"
      | .cdn => "CDN Only"
      | .both => "Both"
    enabled := p.enabled
    priority := p.priority }

/-- Key lookup in an embedded `DashMap`/`HashMap` represented as a
function. -/
def mapUpdate {α : Type} (m : String → Option α) (k : String) (v : α) :
    String → Option α :=
  fun k' => if k' = k then some v else m k'

/-- Registry state: the two `DashMap`s of `ProviderRegistry`.  The provider
map additionally carries its (arbitrary, hash-determined) iteration order
as the list order; the metadata map is keyed separately exactly as in the
source. -/
structure RegistryState where
  providers : List (String × ProviderR)
  providerMetadata : List (String × ProviderMetadataE)
deriving DecidableEq, Repr

/-- `contains_key` on an association-list map. -/
def alContainsKey {α : Type} (m : List (String × α)) (k : String) : Bool :=
  m.any (fun e => e.1 = k)

/-- `lookup` on an association-list map (first binding wins, as in a
hash map with unique keys). -/
def alLookup {α : Type} (m : List (String × α)) (k : String) : Option α :=
  (m.find? (fun e => e.1 = k)).map (fun e => e.2)

/-- `HashMap`/`DashMap` insert: any previous binding of the key is
replaced, every other binding is kept (bindings are repositioned, which is
immaterial for a map whose iteration order is arbitrary anyway). -/
def alInsert {α : Type} (m : List (String × α)) (k : String) (v : α) :
    List (String × α) :=
  m.filter (fun e => !(decide (e.1 = k))) ++ [(k, v)]

/-- `ProviderRegistry::register_provider` (`registry/mod.rs` lines 37–49):
error when the name is taken (before any mutation), otherwise insert the
provider and its derived metadata. -/
def registerProvider (st : RegistryState) (p : ProviderR) :
    Except String RegistryState :=
  if alContainsKey st.providers p.name then
    .error ("Provider " ++ p.name ++ " is already registered")
  else
    .ok { providers := alInsert st.providers p.name p
          providerMetadata := alInsert st.providerMetadata p.name (metadataFrom p) }

/-! ### `ProviderRegistry::detect_all` (`registry/mod.rs` lines 56–284)

The async fan-out is erased: the outcome of each provider's `detect` call
and of the three analysers are explicit inputs (`none` = the probe returned
`Err`, `some l` = `Ok(l)`).  `join_all` preserves the order of the futures,
which is the priority-sorted provider order, and the three synthetic
results are then pushed in the order timing, DNS, payload. -/

/-- `HttpResponse` (`src/http/mod.rs` lines 20–25); the header `HashMap` is
carried as its entry list (keys unique). -/
structure HttpResponseE where
  status : ℕ
  headers : List (String × String)
  body : String
  url : String
deriving DecidableEq, Repr

/-- Enabled-provider filter (`detect_all` lines 60–67): metadata lookup,
`unwrap_or(false)`. -/
def enabledProviders (st : RegistryState) : List (String × ProviderR) :=
  st.providers.filter (fun e => (((alLookup st.providerMetadata e.1).map (fun m => m.enabled)).getD false))

/-- Priority of a provider name (`detect_all` lines 71–74): metadata lookup,
`unwrap_or(0)`. -/
def priorityOf (st : RegistryState) (name : String) : ℕ :=
  (((alLookup st.providerMetadata name).map (fun m => m.priority)).getD 0)

/-- Insert one provider entry into a priority-descending list, before the
first entry of strictly smaller priority and after entries of greater or
equal priority. -/
def insertByPriority (st : RegistryState) (e : String × ProviderR) :
    List (String × ProviderR) → List (String × ProviderR)
  | [] => [e]
  | f :: l =>
      if priorityOf st e.1 ≥ priorityOf st f.1 then e :: f :: l
      else f :: insertByPriority st e l

/-- Stable sort by priority descending, embedding the stable
`providers.sort_by(|a, b| b.2.cmp(&a.2))` of `detect_all` line 79 as a
stable insertion sort (two stable sorts on the same key agree). -/
def sortByPriority (st : RegistryState) : List (String × ProviderR) → List (String × ProviderR)
  | [] => []
  | e :: l => insertByPriority st e (sortByPriority st l)

/-- The `(name, evidence)` results of the provider futures, in the sorted
launch order (= `join_all` completion-list order); a provider whose
`detect` errored contributes nothing (lines 86–92, `flatten`). -/
def providerResults (st : RegistryState) (detectOf : String → Option (List EvidenceE)) :
    List (String × List EvidenceE) :=
  (sortByPriority st (enabledProviders st)).filterMap
    (fun e => (detectOf e.1).map (fun ev => (e.1, ev)))

/-- One synthetic analysis entry (lines 98–159): pushed only when the
analyser succeeded with a non-empty evidence list. -/
def syntheticEntry (name : String) : Option (List EvidenceE) → List (String × List EvidenceE)
  | some l => if l.isEmpty then [] else [(name, l)]
  | none => []

/-- The complete `results` list iterated by the scoring loop (lines
162–200): provider results followed by timing, DNS and payload entries. -/
def detectAllResults (st : RegistryState) (detectOf : String → Option (List EvidenceE))
    (timingRes dnsRes payloadRes : Option (List EvidenceE)) :
    List (String × List EvidenceE) :=
  providerResults st detectOf ++
    syntheticEntry "TimingAnalysis" timingRes ++
    syntheticEntry "DnsAnalysis" dnsRes ++
    syntheticEntry "PayloadAnalysis" payloadRes

/-- The initial `evidence_map` (lines 186–194): one empty entry per
registered provider (enabled or not) and per synthetic source. -/
def initEvidenceMap (st : RegistryState) : String → Option (List EvidenceE) :=
  fun k =>
    if alContainsKey st.providers k ∨
        k = "TimingAnalysis" ∨ k = "DnsAnalysis" ∨ k = "PayloadAnalysis" then
      some []
    else none

/-- The mutable state of the result loop (lines 180–198): the two maps, the
two best slots and their running confidences.  The `max_confidence`
variable of the source is written but never read into the result and is not
modelled. -/
structure LoopState where
  evidenceMap : String → Option (List EvidenceE)
  providerScores : String → Option ℚ
  bestWaf : Option ProviderDetectionE
  bestWafConf : ℚ
  bestCdn : Option ProviderDetectionE
  bestCdnConf : ℚ

/-- The `"WAF Only"` arm and the WAF half of the `"Both"` arm (lines
225–233, 245–251): strict improvement of the running best. -/
def updWaf (name : String) (score : ℚ) (acc : LoopState) : LoopState :=
  if score > acc.bestWafConf then
    { acc with bestWaf := some ⟨name, score⟩, bestWafConf := score }
  else acc

/-- The `"CDN Only"` arm and the CDN half of the `"Both"` arm (lines
234–242, 252–258). -/
def updCdn (name : String) (score : ℚ) (acc : LoopState) : LoopState :=
  if score > acc.bestCdnConf then
    { acc with bestCdn := some ⟨name, score⟩, bestCdnConf := score }
  else acc

/-- The slot-competition step (lines 223–262): look the source name up in
the metadata map (synthetic sources are absent and compete for nothing) and
dispatch on the `provider_type` string. -/
def applySelection (st : RegistryState) (name : String) (score : ℚ) (acc : LoopState) :
    LoopState :=
  match alLookup st.providerMetadata name with
  | none => acc
  | some md =>
      if md.providerType = "WAF Only" then updWaf name score acc
      else if md.providerType = "CDN Only" then updCdn name score acc
      else if md.providerType = "Both" then updCdn name score (updWaf name score acc)
      else acc

/-- One iteration of the result loop (lines 200–264): record the evidence
list (even when empty), and when it is non-empty score it with the advanced
scorer and compete for the slots. -/
def loopStep (st : RegistryState) (headers : List (String × String))
    (acc : LoopState) (r : String × List EvidenceE) : LoopState :=
  let acc1 := { acc with evidenceMap := mapUpdate acc.evidenceMap r.1 r.2 }
  if r.2.isEmpty then acc1
  else
    let score := calcConfidenceScore r.1 r.2 headers
    let acc2 := { acc1 with providerScores := mapUpdate acc1.providerScores r.1 score }
    applySelection st r.1 score acc2

/-- Loop state before the first iteration (lines 180–198). -/
def initLoopState (st : RegistryState) : LoopState :=
  { evidenceMap := initEvidenceMap st
    providerScores := fun _ => none
    bestWaf := none
    bestWafConf := 0
    bestCdn := none
    bestCdnConf := 0 }

/-- `DetectionResult` (`src/lib.rs` lines 91–99).  `detection_time_ms` and
`metadata` hold wall-clock data (elapsed time, `Utc::now` timestamp) with
no logical content and are not modelled. -/
structure DetectionResultE where
  url : String
  detectedWaf : Option ProviderDetectionE
  detectedCdn : Option ProviderDetectionE
  providerScores : String → Option ℚ
  evidenceMap : String → Option (List EvidenceE)

/-- `ProviderRegistry::detect_all`, assembled from the pieces above.
`respHeaders` is `context.response.map(|r| r.headers).unwrap_or_default()`
(lines 208–211). -/
def detectAll (st : RegistryState) (detectOf : String → Option (List EvidenceE))
    (timingRes dnsRes payloadRes : Option (List EvidenceE))
    (respHeaders : List (String × String)) (url : String) : DetectionResultE :=
  let results := detectAllResults st detectOf timingRes dnsRes payloadRes
  let final := results.foldl (loopStep st respHeaders) (initLoopState st)
  { url := url
    detectedWaf := final.bestWaf
    detectedCdn := final.bestCdn
    providerScores := final.providerScores
    evidenceMap := final.evidenceMap }

/-! ### Detection engine (`src/engine/mod.rs`) -/

/-- `DetectionEngine::detect` (lines 34–48): the initial probe's outcome is
explicit; `?` propagates a transport error to the caller, otherwise
`detect_all` runs on a context whose response is the probe's response. -/
def engineDetect (st : RegistryState) (detectOf : String → Option (List EvidenceE))
    (timingRes dnsRes payloadRes : Option (List EvidenceE))
    (probe : Except String HttpResponseE) (url : String) :
    Except String DetectionResultE :=
  match probe with
  | .error e => .error e
  | .ok resp => .ok (detectAll st detectOf timingRes dnsRes payloadRes resp.headers url)

/-- The substitute result built by `DetectionEngine::detect_batch` for a
URL whose detection failed (lines 64–77): both slots unset and both maps
entirely empty (`HashMap::new()` — no keys at all). -/
def failedResult (url : String) : DetectionResultE :=
  { url := url
    detectedWaf := none
    detectedCdn := none
    providerScores := fun _ => none
    evidenceMap := fun _ => none }

/-- One URL's entry in the `detect_batch` output map (lines 54–86): the
detection result on success, the substitute `failedResult` on failure, so
the batch always keeps an entry for every URL. -/
def detectBatchEntry (st : RegistryState) (detectOf : String → Option (List EvidenceE))
    (timingRes dnsRes payloadRes : Option (List EvidenceE))
    (probe : Except String HttpResponseE) (url : String) : DetectionResultE :=
  match engineDetect st detectOf timingRes dnsRes payloadRes probe url with
  | .ok r => r
  | .error _ => failedResult url

/-! ### Specification-side definitions

Reference formulations written from the (amended) specification wording, to
be compared with the code-derived functions above. -/

/-- The smoke-test classification as an ordered first-match rule list, the
way the (amended) specification describes it: challenge markers first and
overriding every status (429 included), then the pure status-code rules;
header indicators and body blocking keywords never override. -/
def classifySpecOrdered (status : ℕ) (body : String) : PayloadClassification :=
  if hasChallengeMarker body then .challenge
  else if status = 429 then .rateLimited
  else if status = 403 ∨ status = 406 ∨ status = 503 then .blocked
  else if status = 200 ∨ status = 301 ∨ status = 302 then .allowed
  else .error

/-- Running maximum of the scores of an entry list, seeded with `c`. -/
def maxFrom (l : List (String × ℚ)) (c : ℚ) : ℚ :=
  l.foldl (fun acc e => max acc e.2) c

/-- Specification-side slot selection: the slot is unset when no eligible
score exceeds 0, otherwise it holds the FIRST entry (in the given order)
attaining the maximal score. -/
def firstMaxSelection (entries : List (String × ℚ)) : Option ProviderDetectionE :=
  if maxFrom entries 0 > 0 then
    (entries.find? (fun e => decide (e.2 = maxFrom entries 0))).map
      (fun e => ⟨e.1, e.2⟩)
  else none

/-- The WAF-eligible score of one result entry: non-empty evidence, a
metadata record of kind `"WAF Only"` or `"Both"`, scored by the advanced
scorer. -/
def wafEligibleScore (st : RegistryState) (headers : List (String × String))
    (r : String × List EvidenceE) : Option ℚ :=
  if r.2.isEmpty then none
  else
    match alLookup st.providerMetadata r.1 with
    | none => none
    | some md =>
        if md.providerType = "WAF Only" ∨ md.providerType = "Both" then
          some (calcConfidenceScore r.1 r.2 headers)
        else none

/-- The CDN-eligible score of one result entry (kinds `"CDN Only"` and
`"Both"`). -/
def cdnEligibleScore (st : RegistryState) (headers : List (String × String))
    (r : String × List EvidenceE) : Option ℚ :=
  if r.2.isEmpty then none
  else
    match alLookup st.providerMetadata r.1 with
    | none => none
    | some md =>
        if md.providerType = "CDN Only" ∨ md.providerType = "Both" then
          some (calcConfidenceScore r.1 r.2 headers)
        else none

/-- WAF-eligible `(name, score)` entries of a result list, in order. -/
def wafEntries (st : RegistryState) (headers : List (String × String))
    (results : List (String × List EvidenceE)) : List (String × ℚ) :=
  results.filterMap (fun r => (wafEligibleScore st headers r).map (fun q => (r.1, q)))

/-- CDN-eligible `(name, score)` entries of a result list, in order. -/
def cdnEntries (st : RegistryState) (headers : List (String × String))
    (results : List (String × List EvidenceE)) : List (String × ℚ) :=
  results.filterMap (fun r => (cdnEligibleScore st headers r).map (fun q => (r.1, q)))

/-- The selection loop restricted to one slot: the exact strict-improvement
recurrence the source runs on the eligible entries. -/
def selLoop : List (String × ℚ) → Option ProviderDetectionE × ℚ → Option ProviderDetectionE × ℚ
  | [], s => s
  | e :: l, s => selLoop l (if e.2 > s.2 then (some ⟨e.1, e.2⟩, e.2) else s)

/-- The WAF-slot component of the loop state. -/
def wafSel (acc : LoopState) : Option ProviderDetectionE × ℚ := (acc.bestWaf, acc.bestWafConf)

/-- The CDN-slot component of the loop state. -/
def cdnSel (acc : LoopState) : Option ProviderDetectionE × ℚ := (acc.bestCdn, acc.bestCdnConf)

/-! ### Concrete sample values used by witnesses and counterexamples -/

/-- The CloudFlare provider descriptor (`cloudflare.rs` lines 18–25 and
214–228). -/
def cloudFlareProviderR : ProviderR :=
  { name := "CloudFlare"
    version := "1.0.0"
    description := "CloudFlare WAF/CDN detection provider"
    ptype := .both
    confidenceBase := 95/100
    priority := 100
    enabled := true }

/-- The AWS provider descriptor (`aws.rs` lines 18–25 and 534–545); its
priority equals CloudFlare's. -/
def awsProviderR : ProviderR :=
  { name := "AWS"
    version := "1.0.0"
    description := "AWS WAF and CloudFront CDN detection provider"
    ptype := .both
    confidenceBase := 1/2
    priority := 100
    enabled := true }

/-- A registry holding just the CloudFlare provider, as built by
`register_provider`. -/
def registryCF : RegistryState :=
  { providers := [("CloudFlare", cloudFlareProviderR)]
    providerMetadata := [("CloudFlare", metadataFrom cloudFlareProviderR)] }

/-- A registry holding CloudFlare then AWS (one possible `DashMap`
iteration order), as built by two `register_provider` calls. -/
def registryCFAWS : RegistryState :=
  { providers := [("CloudFlare", cloudFlareProviderR), ("AWS", awsProviderR)]
    providerMetadata :=
      [("CloudFlare", metadataFrom cloudFlareProviderR), ("AWS", metadataFrom awsProviderR)] }

/-- An Evidence item with an unknown signature and header method, as any
provider may emit for an unlisted header; it is scored with the header
fallback weight, so two providers emitting it tie exactly. -/
def genericHeaderEvidence : EvidenceE :=
  { methodType := .header "x-generic-edge"
    confidence := 9/10
    description := "generic edge header detected"
    rawData := "edge"
    signatureMatched := "x-generic-edge-header" }

/-- A detect-outcome assignment under which CloudFlare and AWS each emit
the same single unknown-signature header evidence, producing an exact
score tie between two providers of equal priority. -/
def tieDetectOf : String → Option (List EvidenceE) :=
  fun n => if n = "CloudFlare" ∨ n = "AWS" then some [genericHeaderEvidence] else none

/-- A blocked smoke-test result (shape of the unit test at
`waf_smoke_test.rs` lines 741–751). -/
def sampleBlockedResult : PayloadTestResultE :=
  { category := "XssBasic"
    payload := "<script>alert(1)</script>"
    payloadType := .xssBasic
    responseStatus := 403
    responseTimeMs := 100
    classification := .blocked
    evidence := []
    wafIndicators := [] }

/-- An allowed smoke-test result. -/
def sampleAllowedResult : PayloadTestResultE :=
  { category := "SqlInjectionBasic"
    payload := "1 OR 1=1"
    payloadType := .sqlInjectionBasic
    responseStatus := 200
    responseTimeMs := 150
    classification := .allowed
    evidence := []
    wafIndicators := [] }

/-! ## Helper lemmas -/

theorem containsLower_akamai_amz : containsLower "akamai-grn" "x-amz-cf-id" = false := by decide

theorem containsLower_akamaiTr_amz :
    containsLower "x-akamai-transformed" "x-amz-cf-id" = false := by decide

theorem containsLower_cfray_cfray : containsLower "cf-ray" "cf-ray" = true := by decide

theorem containsLower_cfcache_cfray : containsLower "cf-cache-status" "cf-ray" = false := by decide

/-- Numeric value of the CloudFlare score on a lone CF-Ray Evidence with the
contradicting `x-amz-cf-id` response header present:
0.95·(0.95·0.98·0.99)·1.1 = 0.96316605, no contradiction penalty. -/
theorem score_cfRay_with_amz_header :
    calcConfidenceScore "CloudFlare" [cfRayEvidence] [("x-amz-cf-id", "abc")] =
      96316605/100000000 := by
  simp only [calcConfidenceScore, applyNegative, negativeEvidencePatterns, breakdownOf, totalOf,
    contribution, weightOf, evidenceWeights, cfRayEvidence, allCategories, List.foldl,
    List.countP, List.countP.go, Option.getD, Breakdown.zero, Breakdown.add, Breakdown.get,
    containsLower_akamai_amz, containsLower_akamaiTr_amz]
  norm_num [min_def]

/-- The same score with the `x-amz-cf-id` header absent. -/
theorem score_cfRay_without_amz_header :
    calcConfidenceScore "CloudFlare" [cfRayEvidence] [] = 96316605/100000000 := by
  simp only [calcConfidenceScore, applyNegative, negativeEvidencePatterns, breakdownOf, totalOf,
    contribution, weightOf, evidenceWeights, cfRayEvidence, allCategories, List.foldl,
    List.countP, List.countP.go, Option.getD, Breakdown.zero, Breakdown.add, Breakdown.get]
  norm_num [min_def]

/-- Each smoke-test result carries exactly one of the five classifications,
so the five summary counts partition the result list. -/
theorem classification_counts_partition (results : List PayloadTestResultE) :
    results.countP (fun r => decide (r.classification = .blocked)) +
      results.countP (fun r => decide (r.classification = .allowed)) +
      results.countP (fun r => decide (r.classification = .error)) +
      results.countP (fun r => decide (r.classification = .rateLimited)) +
      results.countP (fun r => decide (r.classification = .challenge)) = results.length := by
  induction results with
  | nil => simp
  | cons r l ih =>
      cases hr : r.classification <;> simp [List.countP_cons, hr] <;> omega

/-- The per-sample squared deviations are nonnegative, so the raw variance
is. -/
theorem varianceRaw_nonneg (times : List ℕ) (mean : ℕ) : 0 ≤ varianceRaw times mean := by
  unfold varianceRaw
  apply div_nonneg
  · apply List.sum_nonneg
    intro x hx
    simp only [List.mem_map] at hx
    obtain ⟨t, _, rfl⟩ := hx
    positivity
  · positivity

/-- Justification of the square-root-free embedding of
`calculate_variance(times, mean) < 0.3`: the rational comparison
`variance·100 < 9·mean²` used by `cvLtThreshold` is equivalent to the
source's real-valued comparison `min(sqrt(variance)/mean, 1) < 0.3`, with
the source's 0 value in the `len ≤ 1` and `mean = 0` cases. -/
theorem cvLtThreshold_matches_sqrt (times : List ℕ) (mean : ℕ) :
    cvLtThreshold times mean = true ↔
      (if times.length ≤ 1 then (0 : ℝ)
       else if mean = 0 then (0 : ℝ)
       else min (Real.sqrt ((varianceRaw times mean : ℚ) : ℝ) / (mean : ℝ)) 1) < 3/10 := by
  unfold cvLtThreshold
  by_cases h1 : times.length ≤ 1
  · simp only [h1, if_true]
    norm_num
  · by_cases h2 : mean = 0
    · simp only [h1, h2, if_false, if_true]
      norm_num
    · simp only [h1, h2, if_false, decide_eq_true_eq]
      have hm : (0 : ℝ) < (mean : ℝ) := by
        have := Nat.pos_of_ne_zero h2
        exact_mod_cast this
      have hy : (0 : ℝ) < 3/10 * (mean : ℝ) := by positivity
      rw [min_lt_iff]
      have h31 : ¬ ((1 : ℝ) < 3/10) := by norm_num
      constructor
      · intro hq
        left
        rw [div_lt_iff₀ hm, ← Real.sqrt_sq (le_of_lt hy)]
        apply Real.sqrt_lt_sqrt
        · exact_mod_cast varianceRaw_nonneg times mean
        · have : ((varianceRaw times mean : ℚ) : ℝ) * 100 < 9 * ((mean : ℚ) : ℝ)^2 := by
            exact_mod_cast hq
          push_cast at this ⊢
          nlinarith
      · intro hd
        rcases hd with hd | hd
        · rw [div_lt_iff₀ hm] at hd
          have hsq := Real.sqrt_nonneg ((varianceRaw times mean : ℚ) : ℝ)
          have hlt : ((varianceRaw times mean : ℚ) : ℝ) < (3/10 * (mean : ℝ))^2 := by
            have := Real.sq_sqrt (show (0:ℝ) ≤ ((varianceRaw times mean : ℚ) : ℝ) by
              exact_mod_cast varianceRaw_nonneg times mean)
            nlinarith
          have : ((varianceRaw times mean : ℚ) : ℝ) * 100 < 9 * ((mean : ℚ) : ℝ)^2 := by
            push_cast at hlt ⊢
            nlinarith
          exact_mod_cast this
        · exact absurd hd h31

/-- The coefficient-of-variation test passes on six identical samples. -/
theorem cvLtThreshold_const500 :
    cvLtThreshold [500, 500, 500, 500, 500, 500] 500 = true := by
  simp [cvLtThreshold, varianceRaw]

/-- Pattern analysis flags a consistent 500 ms mean under the default
configuration (500 ∈ [50, 1000], zero variance). -/
theorem patternDelayDetected_const500 :
    patternDelayDetected defaultTimingConfig [500, 500, 500, 500, 500, 500] = true := by
  simp [patternDelayDetected, avgU64, defaultTimingConfig]
  exact cvLtThreshold_const500

/-- Baseline comparison sees no delay on all-zero timings. -/
theorem baselineDelayDetected_zero :
    baselineDelayDetected defaultTimingConfig [0, 0, 0] [0, 0, 0] = false := by decide

/-! ## Claim theorems -/

/-- **C1.** The claim states that a negative-pattern match multiplies the
score by 0.3, and in particular that a CloudFlare bucket holding one
CF-Ray Evidence (confidence 0.95) scored against response headers that
include `x-amz-cf-id` ends up at most 0.3× the score without that header.
The code contradicts this (a code bug relative to its own comment
"If we see AWS headers, it's NOT CloudFlare"): the second
`insert("CloudFlare", …)` into the `HashMap` of negative patterns
overwrote the AWS-marker entry, so the `x-amz-cf-id` header triggers no
penalty — the two scores are equal (0.96316605), no negative evidence is
counted, and the claimed ≤ 0.3× bound fails; the AWS entry, which did
survive, shows the intended ×0.3 mechanism working. -/
theorem C1_cloudflare_contradiction_penalty_lost :
    calcConfidenceScore "CloudFlare" [cfRayEvidence] [("x-amz-cf-id", "abc")] =
        calcConfidenceScore "CloudFlare" [cfRayEvidence] [] ∧
      negativeEvidenceCount "CloudFlare" [("x-amz-cf-id", "abc")] = 0 ∧
      ¬ calcConfidenceScore "CloudFlare" [cfRayEvidence] [("x-amz-cf-id", "abc")] ≤
          3/10 * calcConfidenceScore "CloudFlare" [cfRayEvidence] [] ∧
      (applyNegative "AWS" [("cf-ray", "abc")] 1).1 = 3/10 := by
  refine ⟨by rw [score_cfRay_with_amz_header, score_cfRay_without_amz_header], ?_, ?_, ?_⟩
  · simp [negativeEvidenceCount, applyNegative, negativeEvidencePatterns,
      containsLower_akamai_amz, containsLower_akamaiTr_amz]
  · rw [score_cfRay_with_amz_header, score_cfRay_without_amz_header]; norm_num
  · simp [applyNegative, negativeEvidencePatterns, containsLower_cfray_cfray,
      containsLower_cfcache_cfray]

/-- **C3** (counterexample).  The claim's rule order puts status 429 before
the challenge-marker check and lets body blocking keywords override an
Allowed status.  The code does neither: a 429 response whose body mentions
"captcha" is classified Challenge (not RateLimited), and a 200 response
whose body says "access denied" stays Allowed (not Blocked). -/
theorem C3_429_captcha_is_challenge :
    classifyResponseClassification 429 "please complete the captcha to continue" =
        .challenge ∧
      PayloadClassification.challenge ≠ .rateLimited ∧
      classifyResponseClassification 200 "<h1>access denied</h1>" = .allowed ∧
      PayloadClassification.allowed ≠ .blocked := by decide

/-- **C3** (amended).  The classifier implements this ordered first-match
rule list: (1) a challenge marker in the lowercased body gives Challenge,
overriding every status code including 429; (2) status 429 gives
RateLimited; (3) status ∈ {403, 406, 503} gives Blocked; (4) status ∈
{200, 301, 302} gives Allowed — header blocking indicators and body
blocking keywords add evidence notes but never override a classification;
(5) anything else is Error. -/
theorem C3_classifier_order_amended (status : ℕ) (body : String) :
    classifyResponseClassification status body = classifySpecOrdered status body := by
  unfold classifyResponseClassification classifySpecOrdered statusClassification
  split_ifs <;> first | rfl | omega

/-- **C7.** For every non-empty list of payload test results, the reported
effectiveness percentage equals (Blocked + RateLimited + Challenge) /
total · 100, and the five classification counts partition the list, so
Allowed and Error results are exactly the ones never counted as
protected. -/
theorem C7_effectiveness_protected_ratio (results : List PayloadTestResultE)
    (h : results ≠ []) :
    (calculateSummary results).effectivenessPercentage =
        ((((calculateSummary results).blockedCount +
            (calculateSummary results).rateLimitedCount +
            (calculateSummary results).challengeCount : ℕ) : ℚ) /
          (results.length : ℚ)) * 100 ∧
      (calculateSummary results).blockedCount + (calculateSummary results).allowedCount +
          (calculateSummary results).errorCount + (calculateSummary results).rateLimitedCount +
          (calculateSummary results).challengeCount = (calculateSummary results).totalTests := by
  have hl : 0 < results.length := List.length_pos.mpr h
  constructor
  · simp [calculateSummary, hl]
  · simpa [calculateSummary] using classification_counts_partition results

/-- Witness for C7 at a concrete two-element run (one Blocked, one
Allowed): the hypothesis is discharged and the formula yields 50%. -/
theorem C7_effectiveness_protected_ratio_witness :
    ([sampleBlockedResult, sampleAllowedResult] ≠ ([] : List PayloadTestResultE)) ∧
      ((calculateSummary [sampleBlockedResult, sampleAllowedResult]).effectivenessPercentage =
          ((((calculateSummary [sampleBlockedResult, sampleAllowedResult]).blockedCount +
              (calculateSummary [sampleBlockedResult, sampleAllowedResult]).rateLimitedCount +
              (calculateSummary [sampleBlockedResult, sampleAllowedResult]).challengeCount : ℕ) : ℚ) /
            (([sampleBlockedResult, sampleAllowedResult] :
                List PayloadTestResultE).length : ℚ)) * 100 ∧
        (calculateSummary [sampleBlockedResult, sampleAllowedResult]).blockedCount +
            (calculateSummary [sampleBlockedResult, sampleAllowedResult]).allowedCount +
            (calculateSummary [sampleBlockedResult, sampleAllowedResult]).errorCount +
            (calculateSummary [sampleBlockedResult, sampleAllowedResult]).rateLimitedCount +
            (calculateSummary [sampleBlockedResult, sampleAllowedResult]).challengeCount =
          (calculateSummary [sampleBlockedResult, sampleAllowedResult]).totalTests) :=
  ⟨by simp, C7_effectiveness_protected_ratio [sampleBlockedResult, sampleAllowedResult] (by simp)⟩

/-- **C8** (counterexample).  The claim says the timing analyser emits
Evidence only for delays inside [min_waf_delay_ms, max_waf_delay_ms].  The
pattern-analysis technique instead accepts any consistent mean up to the
hard-coded 1000 ms: six consistent 500 ms samples under the default
configuration (window [50, 200]) emit Evidence with delay 500 > 200. -/
theorem C8_pattern_emits_above_max :
    (timingAnalyzeEmits defaultTimingConfig [0, 0, 0] [0, 0, 0]
          [500, 500, 500, 500, 500, 500]).map (fun e => (e.technique, e.delayAmountMs)) =
        [(.patternAnalysis, 500)] ∧
      ¬ (500 : ℕ) ≤ defaultTimingConfig.maxWafDelayMs := by
  constructor
  · simp [timingAnalyzeEmits, baselineDelayDetected_zero, patternDelayDetected_const500, avgU64]
  · decide

/-- **C8** (amended).  Baseline comparison emits Evidence exactly when the
baseline-vs-test delay lies in [min_waf_delay_ms, max_waf_delay_ms] — in
particular it emits at a delay of exactly min_waf_delay_ms (50 = 150−100
under the defaults) and not at min_waf_delay_ms − 1; pattern analysis
emits exactly when the mean lies in [min_waf_delay_ms, 1000] and the
coefficient of variation is below 0.3, so its upper bound is 1000 ms, not
max_waf_delay_ms. -/
theorem C8_timing_window_amended (cfg : TimingConfigE) (b t p : List ℕ) :
    ((timingAnalyzeEmits cfg b t p).any
        (fun e => decide (e.technique = .baselineComparison)) = true ↔
      (cfg.minWafDelayMs ≤ baselineDelayAmount b t ∧
        baselineDelayAmount b t ≤ cfg.maxWafDelayMs)) ∧
    ((timingAnalyzeEmits cfg b t p).any
        (fun e => decide (e.technique = .patternAnalysis)) = true ↔
      (cfg.minWafDelayMs ≤ avgU64 p ∧ avgU64 p ≤ 1000 ∧
        cvLtThreshold p (avgU64 p) = true)) ∧
    (timingAnalyzeEmits defaultTimingConfig [100, 100, 100] [150, 150, 150]
        [0, 0, 0, 0, 0, 0]).map
        (fun e => (e.technique, e.delayAmountMs)) = [(.baselineComparison, 50)] ∧
    timingAnalyzeEmits defaultTimingConfig [100, 100, 100] [149, 149, 149]
        [0, 0, 0, 0, 0, 0] = [] := by
  refine ⟨?_, ?_, by decide, by decide⟩
  · unfold timingAnalyzeEmits
    cases hb : baselineDelayDetected cfg b t <;>
      cases hp : patternDelayDetected cfg p <;>
        simp [baselineDelayDetected, hb, hp] at * <;> simp_all [baselineDelayDetected]
  · unfold timingAnalyzeEmits
    cases hb : baselineDelayDetected cfg b t <;>
      cases hp : patternDelayDetected cfg p <;>
        simp [patternDelayDetected, hb, hp] at * <;> simp_all [patternDelayDetected]

/-- **C9.** The claim says every Evidence's `raw_data` is the exact matched
value.  The CloudFlare body detector contradicts the data model's own
documentation ("raw_data: the exact value that matched"): on a body
containing the `cf_clearance` token it emits one Evidence whose `raw_data`
is the fixed tag `"js-tokens-detected"`, a string that does not even occur
in the body, while the matched token does. -/
theorem C9_body_raw_data_is_tag :
    (checkBodyPatterns "cf_clearance=token").map (fun e => e.rawData) =
        ["js-tokens-detected"] ∧
      hasSubStr "cf_clearance" "cf_clearance=token" = true ∧
      hasSubStr "js-tokens-detected" "cf_clearance=token" = false := by decide

/-- `find?` is unaffected by filtering out elements the search predicate
could never accept. -/
theorem find?_filter_of_imp {α : Type} (m : List α) (p q : α → Bool)
    (h : ∀ x, p x = true → q x = true) :
    (m.filter q).find? p = m.find? p := by
  induction m with
  | nil => rfl
  | cons e l ih =>
      by_cases hq : q e = true
      · by_cases hp : p e = true
        · simp [List.filter_cons, hq, List.find?, hp]
        · simp only [Bool.not_eq_true] at hp
          simp [List.filter_cons, hq, List.find?, hp, ih]
      · simp only [Bool.not_eq_true] at hq
        have hp : p e = false := by
          cases hpe : p e with
          | false => rfl
          | true => exact absurd (h e hpe) (by simp [hq])
        simp [List.filter_cons, hq, List.find?, hp, ih]

/-- Inserting a binding makes it visible under its key. -/
theorem alLookup_alInsert_self {α : Type} (m : List (String × α)) (k : String) (v : α) :
    alLookup (alInsert m k v) k = some v := by
  have hnone : (m.filter (fun e => !(decide (e.1 = k)))).find? (fun e => decide (e.1 = k)) =
      none := by
    rw [List.find?_eq_none]
    intro e he
    have := List.of_mem_filter he
    simpa using this
  simp [alLookup, alInsert, List.find?_append, hnone, List.find?]

/-- Inserting a binding leaves every other key's lookup unchanged. -/
theorem alLookup_alInsert_other {α : Type} (m : List (String × α)) (k k' : String) (v : α)
    (h : k' ≠ k) : alLookup (alInsert m k v) k' = alLookup m k' := by
  have hsingle : ([(k, v)] : List (String × α)).find? (fun e => decide (e.1 = k')) = none := by
    simp [List.find?, Ne.symm h]
  have hfilter : (m.filter (fun e => !(decide (e.1 = k)))).find? (fun e => decide (e.1 = k')) =
      m.find? (fun e => decide (e.1 = k')) := by
    refine find?_filter_of_imp m _ _ ?_
    intro x hx
    simp only [decide_eq_true_eq] at hx
    simp [hx, h]
  simp [alLookup, alInsert, List.find?_append, hsingle, hfilter]

/-- **C10.** `register_provider` fails with an error when a provider with
the same name is already registered, returning before any mutation (the
functional embedding returns no new state at all); with a fresh name it
succeeds, the new state maps the name to the provider and its derived
metadata, and every other key's lookup in both maps is unchanged. -/
theorem C10_register_provider_duplicate_and_fresh (st : RegistryState) (p : ProviderR) :
    (alContainsKey st.providers p.name = true →
      registerProvider st p =
        .error ("Provider " ++ p.name ++ " is already registered")) ∧
    (alContainsKey st.providers p.name = false →
      ∃ st', registerProvider st p = .ok st' ∧
        alLookup st'.providers p.name = some p ∧
        alLookup st'.providerMetadata p.name = some (metadataFrom p) ∧
        (∀ k, k ≠ p.name → alLookup st'.providers k = alLookup st.providers k) ∧
        (∀ k, k ≠ p.name → alLookup st'.providerMetadata k = alLookup st.providerMetadata k)) := by
  constructor
  · intro h
    simp [registerProvider, h]
  · intro h
    refine ⟨{ providers := alInsert st.providers p.name p
              providerMetadata := alInsert st.providerMetadata p.name (metadataFrom p) },
      by simp [registerProvider, h], ?_, ?_, ?_, ?_⟩
    · exact alLookup_alInsert_self st.providers p.name p
    · exact alLookup_alInsert_self st.providerMetadata p.name (metadataFrom p)
    · intro k hk
      exact alLookup_alInsert_other st.providers p.name k p hk
    · intro k hk
      exact alLookup_alInsert_other st.providerMetadata p.name k (metadataFrom p) hk

/-- Witness for C10: registering CloudFlare twice fails, registering AWS
into the CloudFlare-only registry succeeds. -/
theorem C10_register_provider_duplicate_and_fresh_witness :
    (alContainsKey registryCF.providers cloudFlareProviderR.name = true ∧
      registerProvider registryCF cloudFlareProviderR =
        .error ("Provider " ++ cloudFlareProviderR.name ++ " is already registered")) ∧
    (alContainsKey registryCF.providers awsProviderR.name = false ∧
      ∃ st', registerProvider registryCF awsProviderR = .ok st' ∧
        alLookup st'.providers awsProviderR.name = some awsProviderR ∧
        alLookup st'.providerMetadata awsProviderR.name = some (metadataFrom awsProviderR) ∧
        (∀ k, k ≠ awsProviderR.name → alLookup st'.providers k = alLookup registryCF.providers k) ∧
        (∀ k, k ≠ awsProviderR.name →
          alLookup st'.providerMetadata k = alLookup registryCF.providerMetadata k)) :=
  ⟨⟨by decide,
    (C10_register_provider_duplicate_and_fresh registryCF cloudFlareProviderR).1 (by decide)⟩,
   ⟨by decide,
    (C10_register_provider_duplicate_and_fresh registryCF awsProviderR).2 (by decide)⟩⟩

/-- **C4** (counterexample).  The claim says a transport error on the
initial probe yields an empty DetectionResult instead of an error.
`DetectionEngine::detect` actually propagates the error (`?` on the
`http_client.get` call): no `Ok` result of any kind is produced. -/
theorem C4_detect_propagates_error :
    engineDetect registryCF (fun _ => none) none none none
        (.error "connection timed out") "https://failing.example" =
      .error "connection timed out" := rfl

/-- **C4** (amended).  It is `detect_batch`, not `detect`, that converts a
per-URL failure into an empty DetectionResult: the batch entry for a URL
whose probe errored is `failedResult url` — both slots unset, and both the
score map and the evidence map entirely empty — so the batch continues
with an entry for every URL. -/
theorem C4_batch_substitutes_empty_result (st : RegistryState)
    (detectOf : String → Option (List EvidenceE))
    (timingRes dnsRes payloadRes : Option (List EvidenceE)) (e url : String) :
    detectBatchEntry st detectOf timingRes dnsRes payloadRes (.error e) url =
        failedResult url ∧
      (failedResult url).detectedWaf = none ∧
      (failedResult url).detectedCdn = none ∧
      (∀ k, (failedResult url).providerScores k = none) ∧
      (∀ k, (failedResult url).evidenceMap k = none) :=
  ⟨rfl, rfl, rfl, fun _ => rfl, fun _ => rfl⟩

/-- `updWaf` never touches the evidence map. -/
theorem updWaf_evidenceMap (n : String) (s : ℚ) (acc : LoopState) :
    (updWaf n s acc).evidenceMap = acc.evidenceMap := by
  unfold updWaf
  split_ifs <;> rfl

/-- `updWaf` never touches the score map. -/
theorem updWaf_providerScores (n : String) (s : ℚ) (acc : LoopState) :
    (updWaf n s acc).providerScores = acc.providerScores := by
  unfold updWaf
  split_ifs <;> rfl

/-- `updCdn` never touches the evidence map. -/
theorem updCdn_evidenceMap (n : String) (s : ℚ) (acc : LoopState) :
    (updCdn n s acc).evidenceMap = acc.evidenceMap := by
  unfold updCdn
  split_ifs <;> rfl

/-- `updCdn` never touches the score map. -/
theorem updCdn_providerScores (n : String) (s : ℚ) (acc : LoopState) :
    (updCdn n s acc).providerScores = acc.providerScores := by
  unfold updCdn
  split_ifs <;> rfl

/-- Slot competition leaves the evidence map unchanged. -/
theorem applySelection_evidenceMap (st : RegistryState) (n : String) (s : ℚ)
    (acc : LoopState) : (applySelection st n s acc).evidenceMap = acc.evidenceMap := by
  unfold applySelection
  rcases alLookup st.providerMetadata n with _ | md
  · rfl
  · dsimp only
    split_ifs <;>
      simp [updWaf_evidenceMap, updCdn_evidenceMap]

/-- Slot competition leaves the score map unchanged. -/
theorem applySelection_providerScores (st : RegistryState) (n : String) (s : ℚ)
    (acc : LoopState) : (applySelection st n s acc).providerScores = acc.providerScores := by
  unfold applySelection
  rcases alLookup st.providerMetadata n with _ | md
  · rfl
  · dsimp only
    split_ifs <;>
      simp [updWaf_providerScores, updCdn_providerScores]

/-- One loop iteration records the evidence list of its entry and nothing
else in the evidence map. -/
theorem loopStep_evidenceMap (st : RegistryState) (h : List (String × String))
    (acc : LoopState) (r : String × List EvidenceE) :
    (loopStep st h acc r).evidenceMap = mapUpdate acc.evidenceMap r.1 r.2 := by
  unfold loopStep
  split_ifs
  · rfl
  · rw [applySelection_evidenceMap]

/-- One loop iteration scores its entry exactly when the evidence list is
non-empty, and touches no other score. -/
theorem loopStep_providerScores (st : RegistryState) (h : List (String × String))
    (acc : LoopState) (r : String × List EvidenceE) :
    (loopStep st h acc r).providerScores =
      if r.2.isEmpty then acc.providerScores
      else mapUpdate acc.providerScores r.1 (calcConfidenceScore r.1 r.2 h) := by
  unfold loopStep
  split_ifs
  · rfl
  · rw [applySelection_providerScores]

/-- The result loop never deletes an evidence-map key. -/
theorem foldl_evidenceMap_isSome (st : RegistryState) (h : List (String × String))
    (results : List (String × List EvidenceE)) (acc : LoopState) (k : String)
    (hk : (acc.evidenceMap k).isSome = true) :
    ((results.foldl (loopStep st h) acc).evidenceMap k).isSome = true := by
  induction results generalizing acc with
  | nil => exact hk
  | cons r l ih =>
      refine ih _ ?_
      rw [loopStep_evidenceMap]
      unfold mapUpdate
      by_cases hkr : k = r.1 <;> simp [hkr, hk]

/-- **C2** (amended, positive half).  Every DetectionResult produced by
`detect_all` has an evidence-map key for every registered provider
(enabled or not) and for the three synthetic sources, an empty list
standing for no observations. -/
theorem C2_evidence_map_has_all_keys (st : RegistryState)
    (detectOf : String → Option (List EvidenceE))
    (timingRes dnsRes payloadRes : Option (List EvidenceE))
    (headers : List (String × String)) (url : String) (name : String)
    (h : alContainsKey st.providers name = true ∨ name = "TimingAnalysis" ∨
      name = "DnsAnalysis" ∨ name = "PayloadAnalysis") :
    ((detectAll st detectOf timingRes dnsRes payloadRes headers url).evidenceMap
        name).isSome = true := by
  unfold detectAll
  refine foldl_evidenceMap_isSome _ _ _ _ _ ?_
  simp only [initLoopState, initEvidenceMap]
  rcases h with h | h | h | h <;> simp [h]

/-- Witness for C2 at a concrete registry and probe outcome. -/
theorem C2_evidence_map_has_all_keys_witness :
    (alContainsKey registryCF.providers "CloudFlare" = true ∨
      ("CloudFlare" : String) = "TimingAnalysis" ∨ ("CloudFlare" : String) = "DnsAnalysis" ∨
      ("CloudFlare" : String) = "PayloadAnalysis") ∧
      ((detectAll registryCF (fun _ => none) none none none [] "https://example.com").evidenceMap
          "CloudFlare").isSome = true :=
  ⟨Or.inl (by decide),
   C2_evidence_map_has_all_keys registryCF (fun _ => none) none none none [] "https://example.com"
     "CloudFlare" (Or.inl (by decide))⟩

/-- **C2** (counterexample).  A DetectionResult produced for a URL that
failed during a batch run has a completely empty `evidence_map`: the key
of the registered CloudFlare provider is absent, not mapped to an empty
list. -/
theorem C2_failed_batch_result_has_no_keys :
    alContainsKey registryCF.providers "CloudFlare" = true ∧
      (detectBatchEntry registryCF (fun _ => none) none none none
          (.error "connection timed out") "https://failing.example").evidenceMap
        "CloudFlare" = none :=
  ⟨by decide, rfl⟩

theorem maxFrom_cons (e : String × ℚ) (l : List (String × ℚ)) (c : ℚ) :
    maxFrom (e :: l) c = maxFrom l (max c e.2) := rfl

/-- The seed never exceeds the running maximum. -/
theorem le_maxFrom (l : List (String × ℚ)) (c : ℚ) : c ≤ maxFrom l c := by
  induction l generalizing c with
  | nil => exact le_refl c
  | cons e l ih => exact le_trans (le_max_left c e.2) (ih (max c e.2))

/-- The strict-improvement selection loop returns the first entry attaining
the overall maximum when that maximum beats the seed, and the seeded best
otherwise. -/
theorem selLoop_spec (l : List (String × ℚ)) (b : Option ProviderDetectionE) (c : ℚ) :
    selLoop l (b, c) =
      (if maxFrom l c > c then
        (l.find? (fun e => decide (e.2 = maxFrom l c))).map (fun e => ⟨e.1, e.2⟩)
      else b, maxFrom l c) := by
  induction l generalizing b c with
  | nil => simp [selLoop, maxFrom]
  | cons e l ih =>
      show selLoop l (if e.2 > c then (some ⟨e.1, e.2⟩, e.2) else (b, c)) = _
      by_cases hec : e.2 > c
      · rw [if_pos hec, ih]
        have hmax : max c e.2 = e.2 := max_eq_right (le_of_lt hec)
        have hMge : e.2 ≤ maxFrom l e.2 := le_maxFrom l e.2
        rw [maxFrom_cons, hmax]
        by_cases hM : maxFrom l e.2 > e.2
        · have hcond : maxFrom l e.2 > c := lt_trans hec hM
          have hfind : (e :: l).find? (fun e' => decide (e'.2 = maxFrom l e.2)) =
              l.find? (fun e' => decide (e'.2 = maxFrom l e.2)) := by
            refine List.find?_cons_of_neg _ ?_
            simp only [decide_eq_true_eq]
            exact fun hx => absurd hM (by rw [← hx]; exact lt_irrefl e.2)
          rw [if_pos hM, if_pos hcond, hfind]
        · have hMeq : maxFrom l e.2 = e.2 := le_antisymm (not_lt.mp hM) hMge
          have hcond : maxFrom l e.2 > c := by rw [hMeq]; exact hec
          have hfind : (e :: l).find? (fun e' => decide (e'.2 = maxFrom l e.2)) = some e := by
            refine List.find?_cons_of_pos _ ?_
            simp [hMeq]
          rw [if_neg hM, if_pos hcond, hfind]
          simp
      · rw [if_neg hec, ih]
        have hmax : max c e.2 = c := max_eq_left (not_lt.mp hec)
        rw [maxFrom_cons, hmax]
        by_cases hM : maxFrom l c > c
        · have hfind : (e :: l).find? (fun e' => decide (e'.2 = maxFrom l c)) =
              l.find? (fun e' => decide (e'.2 = maxFrom l c)) := by
            refine List.find?_cons_of_neg _ ?_
            simp only [decide_eq_true_eq]
            intro hx
            rw [← hx] at hM
            exact hec hM
          rw [if_pos hM, if_pos hM, hfind]
        · rw [if_neg hM, if_neg hM]

theorem selLoop_append (l1 l2 : List (String × ℚ)) (s : Option ProviderDetectionE × ℚ) :
    selLoop (l1 ++ l2) s = selLoop l2 (selLoop l1 s) := by
  induction l1 generalizing s with
  | nil => simp [selLoop]
  | cons e l ih => simp [selLoop, ih]

theorem updCdn_bestWaf (n : String) (q : ℚ) (acc : LoopState) :
    (updCdn n q acc).bestWaf = acc.bestWaf := by
  unfold updCdn
  split_ifs <;> rfl

theorem updCdn_bestWafConf (n : String) (q : ℚ) (acc : LoopState) :
    (updCdn n q acc).bestWafConf = acc.bestWafConf := by
  unfold updCdn
  split_ifs <;> rfl

theorem updWaf_bestCdn (n : String) (q : ℚ) (acc : LoopState) :
    (updWaf n q acc).bestCdn = acc.bestCdn := by
  unfold updWaf
  split_ifs <;> rfl

theorem updWaf_bestCdnConf (n : String) (q : ℚ) (acc : LoopState) :
    (updWaf n q acc).bestCdnConf = acc.bestCdnConf := by
  unfold updWaf
  split_ifs <;> rfl

theorem updWaf_bestWaf (n : String) (q : ℚ) (acc : LoopState) :
    (updWaf n q acc).bestWaf =
      if acc.bestWafConf < q then some ⟨n, q⟩ else acc.bestWaf := by
  unfold updWaf
  split_ifs <;> rfl

theorem updWaf_bestWafConf (n : String) (q : ℚ) (acc : LoopState) :
    (updWaf n q acc).bestWafConf =
      if acc.bestWafConf < q then q else acc.bestWafConf := by
  unfold updWaf
  split_ifs <;> rfl

theorem updCdn_bestCdn (n : String) (q : ℚ) (acc : LoopState) :
    (updCdn n q acc).bestCdn =
      if acc.bestCdnConf < q then some ⟨n, q⟩ else acc.bestCdn := by
  unfold updCdn
  split_ifs <;> rfl

theorem updCdn_bestCdnConf (n : String) (q : ℚ) (acc : LoopState) :
    (updCdn n q acc).bestCdnConf =
      if acc.bestCdnConf < q then q else acc.bestCdnConf := by
  unfold updCdn
  split_ifs <;> rfl

/-- One loop step advances the WAF slot exactly as the selection recurrence
on that step's WAF-eligible entry (if any). -/
theorem loopStep_wafSel (st : RegistryState) (h : List (String × String))
    (acc : LoopState) (r : String × List EvidenceE) :
    wafSel (loopStep st h acc r) =
      selLoop (((wafEligibleScore st h r).map (fun q => (r.1, q))).toList) (wafSel acc) := by
  unfold loopStep wafEligibleScore applySelection
  by_cases hemp : r.2.isEmpty
  · simp [hemp, selLoop, wafSel]
  · simp only [hemp, if_false, Bool.false_eq_true, if_neg]
    rcases hmd : alLookup st.providerMetadata r.1 with _ | md
    · simp [hmd, selLoop, wafSel]
    · simp only [hmd]
      by_cases h1 : md.providerType = "WAF Only"
      · simp [h1, wafSel, updWaf_bestWaf, updWaf_bestWafConf, selLoop]
        split_ifs <;> rfl
      · by_cases h2 : md.providerType = "CDN Only"
        · have h3 : ¬ (md.providerType = "WAF Only" ∨ md.providerType = "Both") := by
            simp [h1, h2]
          simp [h1, h2, h3, wafSel, updCdn_bestWaf, updCdn_bestWafConf, selLoop]
        · by_cases h4 : md.providerType = "Both"
          · simp [h1, h2, h4, wafSel, updCdn_bestWaf, updCdn_bestWafConf,
              updWaf_bestWaf, updWaf_bestWafConf, selLoop]
            split_ifs <;> rfl
          · have h3 : ¬ (md.providerType = "WAF Only" ∨ md.providerType = "Both") := by
              simp [h1, h4]
            simp [h1, h2, h4, h3, selLoop, wafSel]

/-- CDN twin of `loopStep_wafSel`. -/
theorem loopStep_cdnSel (st : RegistryState) (h : List (String × String))
    (acc : LoopState) (r : String × List EvidenceE) :
    cdnSel (loopStep st h acc r) =
      selLoop (((cdnEligibleScore st h r).map (fun q => (r.1, q))).toList) (cdnSel acc) := by
  unfold loopStep cdnEligibleScore applySelection
  by_cases hemp : r.2.isEmpty
  · simp [hemp, selLoop, cdnSel]
  · simp only [hemp, if_false, Bool.false_eq_true, if_neg]
    rcases hmd : alLookup st.providerMetadata r.1 with _ | md
    · simp [hmd, selLoop, cdnSel]
    · simp only [hmd]
      by_cases h1 : md.providerType = "WAF Only"
      · have h3 : ¬ (md.providerType = "CDN Only" ∨ md.providerType = "Both") := by
          simp [h1]
        simp [h1, h3, cdnSel, updWaf_bestCdn, updWaf_bestCdnConf, selLoop]
      · by_cases h2 : md.providerType = "CDN Only"
        · simp [h1, h2, cdnSel, updCdn_bestCdn, updCdn_bestCdnConf, selLoop]
          split_ifs <;> rfl
        · by_cases h4 : md.providerType = "Both"
          · simp [h1, h2, h4, cdnSel, updCdn_bestCdn, updCdn_bestCdnConf,
              updWaf_bestCdn, updWaf_bestCdnConf, selLoop]
            split_ifs <;> rfl
          · have h3 : ¬ (md.providerType = "CDN Only" ∨ md.providerType = "Both") := by
              simp [h2, h4]
            simp [h1, h2, h4, h3, selLoop, cdnSel]

theorem wafEntries_cons (st : RegistryState) (h : List (String × String))
    (r : String × List EvidenceE) (rest : List (String × List EvidenceE)) :
    wafEntries st h (r :: rest) =
      ((wafEligibleScore st h r).map (fun q => (r.1, q))).toList ++ wafEntries st h rest := by
  unfold wafEntries
  rw [List.filterMap_cons]
  rcases wafEligibleScore st h r with _ | q <;> simp

theorem cdnEntries_cons (st : RegistryState) (h : List (String × String))
    (r : String × List EvidenceE) (rest : List (String × List EvidenceE)) :
    cdnEntries st h (r :: rest) =
      ((cdnEligibleScore st h r).map (fun q => (r.1, q))).toList ++ cdnEntries st h rest := by
  unfold cdnEntries
  rw [List.filterMap_cons]
  rcases cdnEligibleScore st h r with _ | q <;> simp

/-- The whole result loop advances the WAF slot exactly as the selection
recurrence over the WAF-eligible entries, in order. -/
theorem foldl_wafSel (st : RegistryState) (h : List (String × String))
    (results : List (String × List EvidenceE)) (acc : LoopState) :
    wafSel (results.foldl (loopStep st h) acc) =
      selLoop (wafEntries st h results) (wafSel acc) := by
  induction results generalizing acc with
  | nil => simp [wafEntries, selLoop]
  | cons r rest ih =>
      rw [List.foldl_cons, ih, loopStep_wafSel, wafEntries_cons, selLoop_append]

/-- CDN twin of `foldl_wafSel`. -/
theorem foldl_cdnSel (st : RegistryState) (h : List (String × String))
    (results : List (String × List EvidenceE)) (acc : LoopState) :
    cdnSel (results.foldl (loopStep st h) acc) =
      selLoop (cdnEntries st h results) (cdnSel acc) := by
  induction results generalizing acc with
  | nil => simp [cdnEntries, selLoop]
  | cons r rest ih =>
      rw [List.foldl_cons, ih, loopStep_cdnSel, cdnEntries_cons, selLoop_append]

/-- With no response headers the contradiction loop is a no-op. -/
theorem applyNegative_nil_headers (p : String) (t : ℚ) : applyNegative p [] t = (t, 0) := by
  unfold applyNegative
  rcases negativeEvidencePatterns p with _ | pats
  · rfl
  · induction pats with
    | nil => rfl
    | cons q rest ih => simp only [List.foldl_cons, List.foldl_nil] at ih ⊢; exact ih

/-- With no response headers the score does not depend on the provider
name (the name is only consulted for negative patterns). -/
theorem calc_nil_headers_provider_irrelevant (p q : String) (ev : List EvidenceE) :
    calcConfidenceScore p ev [] = calcConfidenceScore q ev [] := by
  unfold calcConfidenceScore
  simp only [applyNegative_nil_headers]

/-- The unknown signature falls back to the header method weight. -/
theorem weightOf_generic :
    weightOf genericHeaderEvidence =
      { baseWeight := 85/100, specificity := 80/100, reliability := 90/100,
        category := .headers } := rfl

set_option maxHeartbeats 1600000 in
/-- Score of the tie evidence: 0.9·(0.85·0.80·0.90)·1.1 = 0.60588. -/
theorem score_generic_cf :
    calcConfidenceScore "CloudFlare" [genericHeaderEvidence] [] = 15147/25000 := by
  simp only [calcConfidenceScore, applyNegative, negativeEvidencePatterns, breakdownOf, totalOf,
    contribution, weightOf_generic, allCategories, List.foldl, List.countP, List.countP.go,
    Breakdown.zero, Breakdown.add, Breakdown.get]
  norm_num [min_def, genericHeaderEvidence]

theorem score_generic_aws :
    calcConfidenceScore "AWS" [genericHeaderEvidence] [] = 15147/25000 := by
  rw [calc_nil_headers_provider_irrelevant "AWS" "CloudFlare"]
  exact score_generic_cf

/-- The tie scenario's result list, fully evaluated. -/
theorem tie_results :
    detectAllResults registryCFAWS tieDetectOf none none none =
      [("CloudFlare", [genericHeaderEvidence]), ("AWS", [genericHeaderEvidence])] := rfl

/-- Both providers are WAF-eligible in the tie scenario. -/
theorem tie_wafEntries :
    wafEntries registryCFAWS [] (detectAllResults registryCFAWS tieDetectOf none none none) =
      [("CloudFlare", calcConfidenceScore "CloudFlare" [genericHeaderEvidence] []),
       ("AWS", calcConfidenceScore "AWS" [genericHeaderEvidence] [])] := rfl

/-- **C5** (amended).  Each slot of a DetectionResult holds the FIRST
eligible entry — in the result order, which is the priority-sorted (higher
first, stable) provider order — attaining the maximal eligible score,
provided that maximum exceeds 0; the slot is unset otherwise.  Eligibility
is kind WAF/Both for the waf slot and CDN/Both for the cdn slot with
non-empty evidence, so a Both provider competes for (and may win) both
slots with its score unchanged.  Ties at equal priority fall to the
provider map's iteration order, NOT to lexicographic name order. -/
theorem C5_slot_selection_amended (st : RegistryState)
    (detectOf : String → Option (List EvidenceE))
    (timingRes dnsRes payloadRes : Option (List EvidenceE))
    (headers : List (String × String)) (url : String) :
    (detectAll st detectOf timingRes dnsRes payloadRes headers url).detectedWaf =
        firstMaxSelection (wafEntries st headers
          (detectAllResults st detectOf timingRes dnsRes payloadRes)) ∧
      (detectAll st detectOf timingRes dnsRes payloadRes headers url).detectedCdn =
        firstMaxSelection (cdnEntries st headers
          (detectAllResults st detectOf timingRes dnsRes payloadRes)) := by
  constructor
  · show (wafSel ((detectAllResults st detectOf timingRes dnsRes payloadRes).foldl
        (loopStep st headers) (initLoopState st))).1 = _
    rw [foldl_wafSel]
    show (selLoop _ (none, 0)).1 = _
    rw [selLoop_spec]
    rfl
  · show (cdnSel ((detectAllResults st detectOf timingRes dnsRes payloadRes).foldl
        (loopStep st headers) (initLoopState st))).1 = _
    rw [foldl_cdnSel]
    show (selLoop _ (none, 0)).1 = _
    rw [selLoop_spec]
    rfl

/-- **C5** (counterexample).  CloudFlare and AWS are both registered with
kind Both and equal priority 100; when both emit the same single evidence
item their scores tie exactly (0.60588 each), and the winner of both slots
is CloudFlare — the provider listed first in the registry's iteration
order — although "AWS" precedes "CloudFlare" lexicographically, so the
claimed name tie-break does not hold. -/
theorem C5_tie_not_lexicographic :
    (detectAll registryCFAWS tieDetectOf none none none [] "https://example.com").detectedWaf =
        some ⟨"CloudFlare", 15147/25000⟩ ∧
      (detectAll registryCFAWS tieDetectOf none none none [] "https://example.com").detectedCdn =
        some ⟨"CloudFlare", 15147/25000⟩ ∧
      (detectAll registryCFAWS tieDetectOf none none none [] "https://example.com").providerScores
          "CloudFlare" = some (15147/25000) ∧
      (detectAll registryCFAWS tieDetectOf none none none [] "https://example.com").providerScores
          "AWS" = some (15147/25000) ∧
      priorityOf registryCFAWS "CloudFlare" = priorityOf registryCFAWS "AWS" ∧
      cloudFlareProviderR.ptype = .both ∧ awsProviderR.ptype = .both ∧
      "AWS".toList < "CloudFlare".toList := by
  refine ⟨?_, ?_, ?_, ?_, by decide, rfl, rfl, by decide⟩
  · show (wafSel ((detectAllResults registryCFAWS tieDetectOf none none none).foldl
        (loopStep registryCFAWS []) (initLoopState registryCFAWS))).1 = _
    rw [foldl_wafSel, tie_wafEntries, score_generic_cf, score_generic_aws]
    show (selLoop _ (none, 0)).1 = _
    simp only [selLoop]
    norm_num
  · show (cdnSel ((detectAllResults registryCFAWS tieDetectOf none none none).foldl
        (loopStep registryCFAWS []) (initLoopState registryCFAWS))).1 = _
    rw [foldl_cdnSel]
    have hce : cdnEntries registryCFAWS []
        (detectAllResults registryCFAWS tieDetectOf none none none) =
        [("CloudFlare", calcConfidenceScore "CloudFlare" [genericHeaderEvidence] []),
         ("AWS", calcConfidenceScore "AWS" [genericHeaderEvidence] [])] := rfl
    rw [hce, score_generic_cf, score_generic_aws]
    show (selLoop _ (none, 0)).1 = _
    simp only [selLoop]
    norm_num
  · show (((detectAllResults registryCFAWS tieDetectOf none none none).foldl
        (loopStep registryCFAWS []) (initLoopState registryCFAWS)).providerScores "CloudFlare") = _
    rw [tie_results]
    simp only [List.foldl_cons, List.foldl_nil]
    rw [loopStep_providerScores]
    simp only [List.isEmpty_cons, Bool.false_eq_true, if_false, mapUpdate]
    rw [if_neg (by decide), loopStep_providerScores]
    simp only [List.isEmpty_cons, Bool.false_eq_true, if_false, mapUpdate]
    rw [if_pos trivial, score_generic_cf]
  · show (((detectAllResults registryCFAWS tieDetectOf none none none).foldl
        (loopStep registryCFAWS []) (initLoopState registryCFAWS)).providerScores "AWS") = _
    rw [tie_results]
    simp only [List.foldl_cons, List.foldl_nil]
    rw [loopStep_providerScores]
    simp only [List.isEmpty_cons, Bool.false_eq_true, if_false, mapUpdate]
    rw [if_pos trivial, score_generic_aws]

/-- Insertion keeps the inserted element and the list, as a permutation. -/
theorem insertByPriority_perm (st : RegistryState) (e : String × ProviderR)
    (l : List (String × ProviderR)) : (insertByPriority st e l).Perm (e :: l) := by
  induction l with
  | nil => exact List.Perm.refl _
  | cons f l ih =>
      unfold insertByPriority
      split_ifs
      · exact List.Perm.refl _
      · exact (List.Perm.cons f ih).trans (List.Perm.swap e f l)

/-- The priority sort is a permutation of its input. -/
theorem sortByPriority_perm (st : RegistryState) (l : List (String × ProviderR)) :
    (sortByPriority st l).Perm l := by
  induction l with
  | nil => exact List.Perm.refl _
  | cons e l ih =>
      exact (insertByPriority_perm st e (sortByPriority st l)).trans (List.Perm.cons e ih)

/-- Dropping the providers whose `detect` errored keeps a sub-sequence of
the provider names. -/
theorem providerResults_names_sublist (detectOf : String → Option (List EvidenceE))
    (l : List (String × ProviderR)) :
    ((l.filterMap (fun e => (detectOf e.1).map (fun ev => (e.1, ev)))).map
        Prod.fst).Sublist (l.map Prod.fst) := by
  induction l with
  | nil => exact List.Sublist.refl _
  | cons e l ih =>
      rw [List.filterMap_cons]
      rcases detectOf e.1 with _ | ev
      · exact ih.cons e.1
      · exact ih.cons₂ e.1

/-- A synthetic entry contributes at most its own name. -/
theorem syntheticEntry_names (name : String) (opt : Option (List EvidenceE)) :
    ((syntheticEntry name opt).map Prod.fst).Sublist [name] := by
  rcases opt with _ | l
  · exact List.nil_sublist _
  · show ((if l.isEmpty = true then [] else [(name, l)]).map Prod.fst).Sublist [name]
    split_ifs <;> simp

/-- The source names of a detection's result list are pairwise distinct
whenever the registry's provider names are distinct and none of them is a
synthetic source name — the invariant of every reachable registry. -/
theorem detectAllResults_names_nodup (st : RegistryState)
    (detectOf : String → Option (List EvidenceE))
    (timingRes dnsRes payloadRes : Option (List EvidenceE))
    (hprov : (st.providers.map Prod.fst).Nodup)
    (hT : "TimingAnalysis" ∉ st.providers.map Prod.fst)
    (hD : "DnsAnalysis" ∉ st.providers.map Prod.fst)
    (hP : "PayloadAnalysis" ∉ st.providers.map Prod.fst) :
    ((detectAllResults st detectOf timingRes dnsRes payloadRes).map Prod.fst).Nodup := by
  have hsubenabled : ((enabledProviders st).map Prod.fst).Sublist (st.providers.map Prod.fst) :=
    (List.filter_sublist _).map Prod.fst
  have hpermsort : ((sortByPriority st (enabledProviders st)).map Prod.fst).Perm
      ((enabledProviders st).map Prod.fst) :=
    (sortByPriority_perm st (enabledProviders st)).map Prod.fst
  have hsubpr : ((providerResults st detectOf).map Prod.fst).Sublist
      ((sortByPriority st (enabledProviders st)).map Prod.fst) :=
    providerResults_names_sublist detectOf _
  have hmem : ∀ n, n ∈ (providerResults st detectOf).map Prod.fst →
      n ∈ st.providers.map Prod.fst := by
    intro n hn
    exact hsubenabled.mem (hpermsort.mem_iff.mp (hsubpr.mem hn))
  have hndpr : ((providerResults st detectOf).map Prod.fst).Nodup :=
    (hpermsort.nodup_iff.mpr (hsubenabled.nodup hprov)).sublist hsubpr
  have hTnames := syntheticEntry_names "TimingAnalysis" timingRes
  have hDnames := syntheticEntry_names "DnsAnalysis" dnsRes
  have hPnames := syntheticEntry_names "PayloadAnalysis" payloadRes
  have hdisjDP : ((syntheticEntry "DnsAnalysis" dnsRes).map Prod.fst).Disjoint
      ((syntheticEntry "PayloadAnalysis" payloadRes).map Prod.fst) := by
    intro n hn hn2
    have h1 := hDnames.mem hn
    have h2 := hPnames.mem hn2
    simp at h1 h2
    rw [h1] at h2
    exact absurd h2 (by decide)
  have hdisjT : ((syntheticEntry "TimingAnalysis" timingRes).map Prod.fst).Disjoint
      (((syntheticEntry "DnsAnalysis" dnsRes).map Prod.fst) ++
        ((syntheticEntry "PayloadAnalysis" payloadRes).map Prod.fst)) := by
    intro n hn hn2
    have h1 := hTnames.mem hn
    simp at h1
    rw [List.mem_append] at hn2
    rcases hn2 with hn2 | hn2
    · have h2 := hDnames.mem hn2
      simp at h2
      rw [h1] at h2
      exact absurd h2 (by decide)
    · have h2 := hPnames.mem hn2
      simp at h2
      rw [h1] at h2
      exact absurd h2 (by decide)
  have hdisjPr : ((providerResults st detectOf).map Prod.fst).Disjoint
      (((syntheticEntry "TimingAnalysis" timingRes).map Prod.fst) ++
        (((syntheticEntry "DnsAnalysis" dnsRes).map Prod.fst) ++
          ((syntheticEntry "PayloadAnalysis" payloadRes).map Prod.fst))) := by
    intro n hn hn2
    have hnp := hmem n hn
    rw [List.mem_append, List.mem_append] at hn2
    rcases hn2 with hn2 | hn2 | hn2
    · have h2 := hTnames.mem hn2
      simp at h2
      rw [h2] at hnp
      exact hT hnp
    · have h2 := hDnames.mem hn2
      simp at h2
      rw [h2] at hnp
      exact hD hnp
    · have h2 := hPnames.mem hn2
      simp at h2
      rw [h2] at hnp
      exact hP hnp
  unfold detectAllResults
  rw [List.map_append, List.map_append, List.map_append, List.append_assoc, List.append_assoc]
  rw [List.nodup_append, List.nodup_append, List.nodup_append]
  exact ⟨hndpr, ⟨hTnames.nodup (by simp), ⟨hDnames.nodup (by simp),
    hPnames.nodup (by simp), hdisjDP⟩, hdisjT⟩, hdisjPr⟩

/-- The loop invariant behind C6: a key has a score entry exactly when its
evidence-map entry is a non-empty list, provided the result names are
distinct (true of any real registry: provider names are map keys, the
three synthetic names are distinct and not provider names). -/
theorem foldl_scores_iff (st : RegistryState) (h : List (String × String))
    (results : List (String × List EvidenceE)) (acc : LoopState)
    (hnd : (results.map Prod.fst).Nodup)
    (hP : ∀ k, ((acc.providerScores k).isSome = true) ↔
      ∃ l, acc.evidenceMap k = some l ∧ l ≠ [])
    (hQ : ∀ r ∈ results, acc.evidenceMap r.1 = none ∨ acc.evidenceMap r.1 = some []) :
    ∀ k, (((results.foldl (loopStep st h) acc).providerScores k).isSome = true) ↔
      ∃ l, (results.foldl (loopStep st h) acc).evidenceMap k = some l ∧ l ≠ [] := by
  induction results generalizing acc with
  | nil => exact hP
  | cons r rest ih =>
      rw [List.foldl_cons]
      rw [List.map_cons, List.nodup_cons] at hnd
      refine ih (loopStep st h acc r) hnd.2 ?_ ?_
      · intro k
        rw [loopStep_providerScores, loopStep_evidenceMap]
        by_cases hemp : r.2.isEmpty
        · rw [if_pos hemp]
          have hr2 : r.2 = [] := List.isEmpty_iff.mp hemp
          unfold mapUpdate
          by_cases hk : k = r.1
          · rw [if_pos hk, hr2]
            constructor
            · intro hs
              obtain ⟨l, hl, hlne⟩ := (hP k).mp hs
              rcases hQ r (by simp) with h2 | h2 <;> rw [hk] at hl <;> rw [h2] at hl
              · cases hl
              · injection hl with hh
                exact absurd hh.symm hlne
            · rintro ⟨l, hl, hlne⟩
              injection hl with hh
              exact absurd hh.symm hlne
          · rw [if_neg hk]
            exact hP k
        · rw [if_neg hemp]
          have hr2 : r.2 ≠ [] := by
            intro hx
            rw [hx] at hemp
            exact hemp rfl
          unfold mapUpdate
          by_cases hk : k = r.1
          · rw [if_pos hk, if_pos hk]
            simp [hr2]
          · rw [if_neg hk, if_neg hk]
            exact hP k
      · intro r' hr'
        rw [loopStep_evidenceMap]
        unfold mapUpdate
        have hne : r'.1 ≠ r.1 := by
          intro hx
          exact hnd.1 (by rw [← hx]; exact List.mem_map_of_mem Prod.fst hr')
        rw [if_neg hne]
        exact hQ r' (List.mem_cons_of_mem r hr')

/-- **C6** (amended).  In any registry whose provider names are distinct
map keys, none of them a synthetic source name (every reachable registry),
`provider_scores` has an entry for a source if and only if that source's
evidence list in `evidence_map` is non-empty.  A provider with an empty
evidence list therefore has NO score entry — not an entry with score 0 as
the claim states — and conversely every score entry sits over non-empty
evidence. -/
theorem C6_score_entry_iff_nonempty_evidence (st : RegistryState)
    (detectOf : String → Option (List EvidenceE))
    (timingRes dnsRes payloadRes : Option (List EvidenceE))
    (headers : List (String × String)) (url : String)
    (hprov : (st.providers.map Prod.fst).Nodup)
    (hT : "TimingAnalysis" ∉ st.providers.map Prod.fst)
    (hD : "DnsAnalysis" ∉ st.providers.map Prod.fst)
    (hP : "PayloadAnalysis" ∉ st.providers.map Prod.fst)
    (k : String) :
    (((detectAll st detectOf timingRes dnsRes payloadRes headers url).providerScores
        k).isSome = true) ↔
      ∃ l, (detectAll st detectOf timingRes dnsRes payloadRes headers url).evidenceMap k =
        some l ∧ l ≠ [] := by
  refine foldl_scores_iff st headers _ (initLoopState st)
    (detectAllResults_names_nodup st detectOf timingRes dnsRes payloadRes hprov hT hD hP)
    ?_ ?_ k
  · intro k'
    constructor
    · intro hx
      simp [initLoopState] at hx
    · rintro ⟨l, hl, hlne⟩
      simp only [initLoopState] at hl
      unfold initEvidenceMap at hl
      by_cases hc : (alContainsKey st.providers k' = true ∨ k' = "TimingAnalysis" ∨
          k' = "DnsAnalysis" ∨ k' = "PayloadAnalysis")
      · rw [if_pos hc] at hl
        injection hl with hh
        exact absurd hh.symm hlne
      · rw [if_neg hc] at hl
        cases hl
  · intro r _
    simp only [initLoopState]
    unfold initEvidenceMap
    split_ifs
    · right; rfl
    · left; rfl

/-- Witness for C6 at a concrete run (CloudFlare emitting one evidence
item): the distinct-names hypothesis is discharged by evaluation. -/
theorem C6_score_entry_iff_nonempty_evidence_witness :
    ((registryCF.providers.map Prod.fst).Nodup ∧
      "TimingAnalysis" ∉ registryCF.providers.map Prod.fst ∧
      "DnsAnalysis" ∉ registryCF.providers.map Prod.fst ∧
      "PayloadAnalysis" ∉ registryCF.providers.map Prod.fst) ∧
      ((((detectAll registryCF tieDetectOf none none none [] "https://example.com").providerScores
          "CloudFlare").isSome = true) ↔
        ∃ l, (detectAll registryCF tieDetectOf none none none []
            "https://example.com").evidenceMap "CloudFlare" = some l ∧ l ≠ []) :=
  ⟨⟨by decide, by decide, by decide, by decide⟩,
   C6_score_entry_iff_nonempty_evidence registryCF tieDetectOf none none none []
     "https://example.com" (by decide) (by decide) (by decide) (by decide) "CloudFlare"⟩

/-- **C6** (counterexample).  A registered provider that returned `Ok` with
an empty evidence list gets an empty-list entry in `evidence_map` but NO
entry at all in `provider_scores` — the claim's "entry with score 0" does
not exist. -/
theorem C6_empty_evidence_scores_absent :
    (detectAll registryCF (fun _ => some []) none none none []
        "https://example.com").evidenceMap "CloudFlare" = some [] ∧
      (detectAll registryCF (fun _ => some []) none none none []
        "https://example.com").providerScores "CloudFlare" = none :=
  ⟨rfl, rfl⟩

end WafDetector
